import Mathlib

/-!
# Verification of the BDA record core (validation, normalization, audit-aware persistence)

Shallow embedding of the core subsystem of `app.py`: the value model mirrors
Python values as they flow through the core (`None`, numbers, strings, dates,
times, lists, dicts).  Dates are modeled as day ordinals (`Nat`), so
`date.today() + timedelta(days=30)` is `today + 30`; their string rendering
(`str(date)`, ISO in Python) is modeled by the injective rendering
`dateToStr`.  External library calls are explicit parameters:
`pd.to_datetime` (`pdParse`), `json.loads` (`jsonParse`), `json.dumps`
(`jsonDumps`), `salvar_imagem` (`salvar`), and the clock (`today`, `now`,
`now_ts`).  Python's `str.lower`/`str.strip`/`str.split` are re-implemented
structurally over character lists (`pyLower`, `pyStrip`, `splitOnChar`) so
that they evaluate inside proofs; they agree with Python on the inputs
appearing here.
-/

/-- A `datetime.time` value: hour, minute, second, microsecond. -/
structure PyTime where
  hour : Nat
  minute : Nat
  second : Nat
  micro : Nat
deriving DecidableEq

/-- A Python value as it appears in the core: `None`, bool, int, float
(rationals, with `nan` separate so the `np.isnan` checks can be modeled),
string, `date` (day ordinal), `time`, `datetime`, list, dict. -/
inductive PyVal where
  | none
  | bool (b : Bool)
  | int (n : Int)
  | float (q : Rat)
  | nan
  | str (s : String)
  | date (d : Nat)
  | time (t : PyTime)
  | datetime (d : Nat) (t : PyTime)
  | list (xs : List PyVal)
  | dict (kvs : List (String × PyVal))

/-- Python truthiness (`bool(x)`). -/
def pyTruthy : PyVal → Bool
  | .none => false
  | .bool b => b
  | .int n => n != 0
  | .float q => q != 0
  | .nan => true
  | .str s => s != ""
  | .date _ => true
  | .time _ => true
  | .datetime _ _ => true
  | .list xs => !xs.isEmpty
  | .dict kvs => !kvs.isEmpty

/-- Python `a or b`. -/
def pyOr (a b : PyVal) : PyVal := if pyTruthy a then a else b

/-- `x is None`. -/
def pyIsNone : PyVal → Bool
  | .none => true
  | _ => false

/-- `v == "s"` for a Python value against a string literal. -/
def pyEqStr (v : PyVal) (s : String) : Bool :=
  match v with
  | .str t => t = s
  | _ => false

/-- `d.get(k)` on a dict represented as an association list (first key wins,
default `None`). -/
def pyGet : List (String × PyVal) → String → PyVal
  | [], _ => .none
  | (k', v) :: rest, k => if k' = k then v else pyGet rest k

/-- `d[k] = v`: replace the first binding of `k`, else append. -/
def pySet : List (String × PyVal) → String → PyVal → List (String × PyVal)
  | [], k, v => [(k, v)]
  | (k', v') :: rest, k, v => if k' = k then (k', v) :: rest else (k', v') :: pySet rest k v

/-- `k in d`. -/
def pyHasKey : List (String × PyVal) → String → Bool
  | [], _ => false
  | (k', _) :: rest, k => k' = k || pyHasKey rest k

/-- `.get` on a value expected to be a dict (non-dicts give `None`; the
theorems restrict to inputs on which Python would not raise). -/
def dictGet : PyVal → String → PyVal
  | .dict kvs, k => pyGet kvs k
  | _, _ => .none

/-- `a[k] = v` on a dict value (no-op on non-dicts; theorems restrict to
dicts). -/
def dictSetKey : PyVal → String → PyVal → PyVal
  | .dict kvs, k, v => .dict (pySet kvs k v)
  | w, _, _ => w

/-- `str.lower` (ASCII case model, `Char.toLower` per character). -/
def pyLower (s : String) : String := String.mk (s.data.map Char.toLower)

/-- `str.strip()`. -/
def pyStrip (s : String) : String :=
  String.mk (((s.data.dropWhile Char.isWhitespace).reverse.dropWhile Char.isWhitespace).reverse)

/-- `str.split(sep)` for a one-character separator (`"".split(c) = [""]`). -/
def splitOnChar (c : Char) : List Char → List (List Char)
  | [] => [[]]
  | x :: rest =>
    let r := splitOnChar c rest
    if x = c then [] :: r
    else
      match r with
      | [] => [[x]]
      | h :: t => (x :: h) :: t

/-- Digit run to `Nat`; `Option.none` when empty or a non-digit occurs. -/
def digitsToNat (cs : List Char) : Option Nat :=
  if cs.isEmpty then Option.none
  else if cs.all Char.isDigit then
    Option.some (cs.foldl (fun a c => a * 10 + (c.toNat - 48)) 0)
  else Option.none

/-- `int(s)` on a string: strip, optional sign, decimal digits. -/
def pyStrToInt (s : String) : Option Int :=
  match (pyStrip s).data with
  | '-' :: rest => (digitsToNat rest).map (fun n => -(n : Int))
  | '+' :: rest => (digitsToNat rest).map (fun n => (n : Int))
  | cs => (digitsToNat cs).map (fun n => (n : Int))

/-- Digit run to `Nat`, empty allowed (0). -/
def digitsVal (cs : List Char) : Nat :=
  cs.foldl (fun a c => a * 10 + (c.toNat - 48)) 0

/-- `float(s)` on a string: strip, optional sign, `digits[.digits]`
(exponent/`inf`/`nan` literals are out of the model; no claim depends on
them, a parse failure only yields the 0.0 default). -/
def pyStrToRat (s : String) : Option Rat :=
  let t := (pyStrip s).data
  let core : List Char → Option Rat := fun cs =>
    match splitOnChar '.' cs with
    | [ip] =>
      if ip.isEmpty then Option.none
      else if ip.all Char.isDigit then Option.some ((digitsVal ip : Rat)) else Option.none
    | [ip, fp] =>
      if ip.isEmpty && fp.isEmpty then Option.none
      else if ip.all Char.isDigit && fp.all Char.isDigit then
        Option.some ((digitsVal ip : Rat) + (digitsVal fp : Rat) / ((10 : Rat) ^ fp.length))
      else Option.none
    | _ => Option.none
  match t with
  | '-' :: rest => (core rest).map (fun q => -q)
  | '+' :: rest => core rest
  | cs => core cs

/-- `float(x)`: `Option.none` models an exception. -/
def pyFloatConv : PyVal → Option PyVal
  | .int n => Option.some (.float n)
  | .float q => Option.some (.float q)
  | .nan => Option.some .nan
  | .bool b => Option.some (.float (if b then 1 else 0))
  | .str s =>
    match pyStrToRat s with
    | Option.some q => Option.some (.float q)
    | Option.none => Option.none
  | _ => Option.none

/-- Truncation of a rational toward zero (`int(float)`). -/
def ratTrunc (q : Rat) : Int :=
  if 0 ≤ q.num then (q.num.toNat / q.den : Nat) else -(((-q.num).toNat / q.den : Nat) : Int)

/-- `int(x)`: `Option.none` models an exception (`int(nan)` raises). -/
def pyIntConv : PyVal → Option PyVal
  | .int n => Option.some (.int n)
  | .float q => Option.some (.int (ratTrunc q))
  | .nan => Option.none
  | .bool b => Option.some (.int (if b then 1 else 0))
  | .str s => (pyStrToInt s).map (fun n => .int n)
  | _ => Option.none

/-- Zero-padding to two digits. -/
def pad2 (n : Nat) : String := if n < 10 then "0" ++ toString n else toString n

/-- Zero-padding to six digits (`%06d` for microseconds). -/
def pad6 (n : Nat) : String :=
  let s := toString n
  String.mk (List.replicate (6 - s.length) '0') ++ s

/-- `str(time)`: `HH:MM:SS`, plus `.ffffff` when the microsecond is
non-zero. -/
def timeToStr (t : PyTime) : String :=
  pad2 t.hour ++ ":" ++ pad2 t.minute ++ ":" ++ pad2 t.second ++
    (if t.micro = 0 then "" else "." ++ pad6 t.micro)

/-- `str(date)` for a day-ordinal date (canonical injective rendering,
standing for ISO `YYYY-MM-DD`). -/
def dateToStr (n : Nat) : String := "data-" ++ toString n

/-- `str(x)` for the values reaching `str()` in this core. -/
def pyStr : PyVal → String
  | .none => "None"
  | .bool b => if b then "True" else "False"
  | .int n => toString n
  | .float q => toString q
  | .nan => "nan"
  | .str s => s
  | .date d => dateToStr d
  | .time t => timeToStr t
  | .datetime d t => dateToStr d ++ " " ++ timeToStr t
  | .list _ => "[...]"
  | .dict _ => "\x7b...\x7d"

/-- `str(x) if x else None`, the guard pattern used by the source. -/
def strOrNone (v : PyVal) : PyVal :=
  if pyTruthy v then .str (pyStr v) else .none

/-! ## `_parse_date`, `_parse_time`, `_safe_json_loads` (app.py 249-299) -/

/-- `_parse_date`: `None`/`nan` to `None`; `date`/`datetime` pass through;
strings stripped and handed to pandas (`pdParse`, `errors="coerce"` with the
`.date()` on `NaT` raising, both giving `None`); everything else `None`. -/
def parse_date (pdParse : String → Option Nat) : PyVal → Option Nat
  | PyVal.none => Option.none
  | .nan => Option.none
  | .date d => Option.some d
  | .datetime d _ => Option.some d
  | .str s =>
    if pyStrip s = "" then Option.none else pdParse (pyStrip s)
  | _ => Option.none

/-- `_parse_time`: `None`/`nan` fall back to `now`; `time`/`datetime` pass
through; strings are split on `:` with `int()` per part and `dt_time`
construction (out-of-range raises, caught, `now`); everything else `now`. -/
def parse_time (now : PyTime) : PyVal → PyTime
  | PyVal.none => now
  | .nan => now
  | .time t => t
  | .datetime _ t => t
  | .str s =>
    if pyStrip s = "" then now
    else
      match splitOnChar ':' (pyStrip s).data with
      | [] => now
      | p0 :: rest =>
        match pyStrToInt (String.mk p0) with
        | Option.none => now
        | Option.some hh =>
          let mmOpt := match rest with
            | [] => Option.some (0 : Int)
            | p1 :: _ => pyStrToInt (String.mk p1)
          let ssOpt := match rest with
            | _ :: p2 :: _ => pyStrToInt (String.mk p2)
            | _ => Option.some (0 : Int)
          match mmOpt, ssOpt with
          | Option.some mm, Option.some ss =>
            if 0 ≤ hh ∧ hh ≤ 23 ∧ 0 ≤ mm ∧ mm ≤ 59 ∧ 0 ≤ ss ∧ ss ≤ 59 then
              ⟨hh.toNat, mm.toNat, ss.toNat, 0⟩
            else now
          | _, _ => now
  | _ => now

/-- `_safe_json_loads`: `None` and blank/unparseable strings give the
default; structured values pass through; `json.loads` on any other type
raises `TypeError`, caught, default. -/
def safe_json_loads (jsonParse : String → Option PyVal) (text dflt : PyVal) : PyVal :=
  match text with
  | PyVal.none => dflt
  | .list xs => .list xs
  | .dict kvs => .dict kvs
  | .str s => if pyStrip s = "" then dflt else (jsonParse s).getD dflt
  | _ => dflt

/-! ## `normalizar_dados_bda` (app.py 302-355) -/

/-- The 23 text keys coerced from `None` to `""` by the normalizer. -/
def TEXT_KEYS : List String :=
  ["equipamento", "secao", "numero_ordem", "numero_bda", "turno", "time_bda",
   "dono_bda", "categoria_evento", "componentes", "principio_funcionamento",
   "aconteceu_onde", "aconteceu_antes", "descricao_reparo", "modo_falha",
   "plano_sap", "descricao_plano", "ultimo_executante", "status_plano",
   "existe_plano", "caminho_imagem", "criado_por", "atualizado_por",
   "atualizado_em"]

/-- One step of the `None`-to-`""` loop. -/
def textStep (acc : List (String × PyVal)) (k : String) : List (String × PyVal) :=
  if pyIsNone (pyGet acc k) then pySet acc k (.str "") else acc

/-- `d["data_quebra"] = _parse_date(d.get("data_quebra")) or date.today()`
(a parsed date is always truthy, so `or` fires exactly on `None`). -/
def normData (pdParse : String → Option Nat) (today : Nat)
    (d : List (String × PyVal)) : List (String × PyVal) :=
  pySet d "data_quebra"
    (match parse_date pdParse (pyGet d "data_quebra") with
     | Option.some n => .date n
     | Option.none => .date today)

/-- `d["hora_quebra"] = _parse_time(d.get("hora_quebra"))`. -/
def normHora (now : PyTime) (d : List (String × PyVal)) : List (String × PyVal) :=
  pySet d "hora_quebra" (.time (parse_time now (pyGet d "hora_quebra")))

/-- `d["ultima_realizacao"] = _parse_date(d.get("ultima_realizacao"))`. -/
def normUltima (pdParse : String → Option Nat) (d : List (String × PyVal)) :
    List (String × PyVal) :=
  pySet d "ultima_realizacao"
    (match parse_date pdParse (pyGet d "ultima_realizacao") with
     | Option.some n => .date n
     | Option.none => PyVal.none)

/-- `d["tempo_reparo_h"] = float(d.get("tempo_reparo_h") or 0.0)` with the
`except` falling back to `0.0`. -/
def normTempo (d : List (String × PyVal)) : List (String × PyVal) :=
  pySet d "tempo_reparo_h"
    ((pyFloatConv (pyOr (pyGet d "tempo_reparo_h") (.float 0))).getD (.float 0))

/-- `d["periodicidade_dias"] = int(d.get("periodicidade_dias") or 0)` with
the `except` falling back to `0`. -/
def normPerio (d : List (String × PyVal)) : List (String × PyVal) :=
  pySet d "periodicidade_dias"
    ((pyIntConv (pyOr (pyGet d "periodicidade_dias") (.int 0))).getD (.int 0))

/-- `d[k] = _safe_json_loads(d.get(k), default=[])`. -/
def normJson (jsonParse : String → Option PyVal) (k : String)
    (d : List (String × PyVal)) : List (String × PyVal) :=
  pySet d k (safe_json_loads jsonParse (pyGet d k) (.list []))

/-- The `None`-to-`""` loop over the 23 text keys. -/
def normTexts (d : List (String × PyVal)) : List (String × PyVal) :=
  TEXT_KEYS.foldl textStep d

/-- The `existe_plano` inference from `plano_sap` when the flag is not
`"Sim"`/`"Não"`. -/
def normExiste (d : List (String × PyVal)) : List (String × PyVal) :=
  if pyEqStr (pyGet d "existe_plano") "Sim" || pyEqStr (pyGet d "existe_plano") "Não" then d
  else pySet d "existe_plano"
    (if pyTruthy (pyGet d "plano_sap") then .str "Sim" else .str "Não")

/-- `normalizar_dados_bda`.  `pdParse` models `pd.to_datetime(. ).date()`,
`jsonParse` models `json.loads`, `today`/`now` the clock.  The body is the
source statement sequence, written as a composition of one named step per
statement. -/
def normalizar_dados_bda (pdParse : String → Option Nat) (jsonParse : String → Option PyVal)
    (today : Nat) (now : PyTime) (dados : List (String × PyVal)) : List (String × PyVal) :=
  if dados.isEmpty then [] else
  normExiste (normTexts (normJson jsonParse "causas_linhas" (normJson jsonParse "acoes_lista"
    (normJson jsonParse "cinco_porques_grid" (normPerio (normTempo (normUltima pdParse
      (normHora now (normData pdParse today dados)))))))))

/-! ## `all_filled` and `validar_payload` (app.py 239-246, 430-535) -/

/-- `labels.get(k, k)`. -/
def labelOf : List (String × String) → String → String
  | [], k => k
  | (k', l) :: rest, k => if k' = k then l else labelOf rest k

/-- A value failing the `all_filled` check: `None`, or a string blank after
stripping. -/
def isBlankVal : PyVal → Bool
  | PyVal.none => true
  | PyVal.str s => pyStrip s = ""
  | _ => false

/-- `all_filled`: one error per `None` or blank-string value, in dict
order. -/
def all_filled : List (String × PyVal) → List (String × String) → List String
  | [], _ => []
  | (k, v) :: rest, labels =>
    if isBlankVal v then ("Preencha o campo: " ++ labelOf labels k) :: all_filled rest labels
    else all_filled rest labels

/-- The mandatory event-section values exactly as `validar_payload` builds
them; note `tempo_reparo_h` is wrapped in an unconditional `str()` (so a
`None` becomes the non-blank string `"None"`) while `data_quebra`,
`hora_quebra` and `turno` are guarded. -/
def obrigEventoVals (p : List (String × PyVal)) : List (String × PyVal) :=
  [("equipamento", pyGet p "equipamento"),
   ("secao", pyGet p "secao"),
   ("data_quebra", strOrNone (pyGet p "data_quebra")),
   ("hora_quebra", strOrNone (pyGet p "hora_quebra")),
   ("tempo_reparo_h", .str (pyStr (pyGet p "tempo_reparo_h"))),
   ("numero_ordem", pyGet p "numero_ordem"),
   ("numero_bda", pyGet p "numero_bda"),
   ("turno", if pyTruthy (pyGet p "turno") then pyGet p "turno" else PyVal.none),
   ("time_bda", pyGet p "time_bda"),
   ("dono_bda", pyGet p "dono_bda"),
   ("categoria_evento", pyGet p "categoria_evento"),
   ("componentes", pyGet p "componentes"),
   ("principio_funcionamento", pyGet p "principio_funcionamento"),
   ("aconteceu_onde", pyGet p "aconteceu_onde"),
   ("aconteceu_antes", pyGet p "aconteceu_antes"),
   ("descricao_reparo", pyGet p "descricao_reparo"),
   ("modo_falha", pyGet p "modo_falha")]

/-- Display labels for the mandatory event fields. -/
def OBRIG_LABELS : List (String × String) :=
  [("equipamento", "Equipamento"),
   ("secao", "Seção/Local"),
   ("data_quebra", "Data da quebra"),
   ("hora_quebra", "Hora da quebra"),
   ("tempo_reparo_h", "Tempo de reparo (h)"),
   ("numero_ordem", "Nº Ordem"),
   ("numero_bda", "Nº BDA"),
   ("turno", "Turno"),
   ("time_bda", "Time da BDA"),
   ("dono_bda", "Dono da BDA"),
   ("categoria_evento", "Categoria"),
   ("componentes", "Componentes"),
   ("principio_funcionamento", "Princípio de funcionamento"),
   ("aconteceu_onde", "O que aconteceu e onde"),
   ("aconteceu_antes", "O que aconteceu antes"),
   ("descricao_reparo", "Descrição do reparo"),
   ("modo_falha", "Modo da falha")]

/-- The conditional plan-section values (checked only when
`existe_plano == "Sim"`); `periodicidade_dias` gets the same unconditional
`str()` wrap. -/
def planVals (p : List (String × PyVal)) : List (String × PyVal) :=
  [("plano_sap", pyGet p "plano_sap"),
   ("descricao_plano", pyGet p "descricao_plano"),
   ("ultimo_executante", pyGet p "ultimo_executante"),
   ("periodicidade_dias", .str (pyStr (pyGet p "periodicidade_dias"))),
   ("ultima_realizacao", strOrNone (pyGet p "ultima_realizacao")),
   ("status_plano", pyGet p "status_plano")]

/-- Display labels for the plan fields. -/
def PLAN_LABELS : List (String × String) :=
  [("plano_sap", "Plano SAP"),
   ("descricao_plano", "Descrição do plano"),
   ("ultimo_executante", "Último executante"),
   ("periodicidade_dias", "Periodicidade (dias)"),
   ("ultima_realizacao", "Última realização"),
   ("status_plano", "Status do plano")]

/-- `row.get("pq<j>")` through the `(row or {})` guard. -/
def rowGet (row : PyVal) (k : String) : PyVal := dictGet (pyOr row (.dict [])) k

/-- The key `pq<j>`. -/
def pqKey (j : Nat) : String := "pq" ++ toString j

/-- Count of truthy positions `pq1..pq5` of a row. -/
def filledCount (row : PyVal) : Nat :=
  (List.range 5).countP (fun j => pyTruthy (rowGet row (pqKey (j + 1))))

/-- Index of the last truthy position (0 when none). -/
def lastIdx (row : PyVal) : Nat :=
  (List.range 5).foldl (fun acc j => if pyTruthy (rowGet row (pqKey (j + 1))) then j + 1 else acc) 0

/-- The sequencing check: every filled position at `j ≥ 2` must have its
predecessor filled. -/
def seqOkRow (row : PyVal) : Bool :=
  (List.range 5).all (fun j =>
    if 1 ≤ j ∧ pyTruthy (rowGet row (pqKey (j + 1))) then pyTruthy (rowGet row (pqKey j)) else true)

/-- The global error demanding one sufficiently deep Why line. -/
def ERRO_MIN4 : String := "Preencha pelo menos uma linha com no mínimo 4 Por quês."

/-- The per-row part of the Why-grid walk: errors in source order, the
`causas` list with the `ultimo_por_que` stamp applied, and the count of rows
with at least 4 filled positions. -/
def whysRowsAux : List PyVal → Nat → List PyVal → Nat → List String × List PyVal × Nat
  | [], _, causas, nvalid => ([], causas, nvalid)
  | row :: rest, i, causas, nvalid =>
    let e1 : List String :=
      if seqOkRow row then []
      else ["Linha " ++ toString i ++ ": preencha os porquês em sequência (não pule etapas)."]
    let nvalid' := if 4 ≤ filledCount row then nvalid + 1 else nvalid
    let causaInfo := causas.getD (i - 1) (.dict [])
    let causaBlank := !pyTruthy (dictGet (pyOr causaInfo (.dict [])) "causa")
    let e2causas : List String × List PyVal :=
      if 0 < filledCount row ∧ causaBlank = true then
        (["Linha " ++ toString i ++ ": preencha a Causa vinculada ao último Por quê preenchido."], causas)
      else
        ([], if i - 1 < causas.length then
               causas.set (i - 1) (dictSetKey causaInfo "ultimo_por_que" (.int (lastIdx row)))
             else causas)
    let rec2 := whysRowsAux rest (i + 1) e2causas.2 nvalid'
    (e1 ++ e2causas.1 ++ rec2.1, rec2.2.1, rec2.2.2)

/-- An action "counts" when description and responsible are truthy. -/
def acaoConta (a : PyVal) : Bool :=
  pyTruthy (dictGet a "descricao") && pyTruthy (dictGet a "responsavel")

/-- The canned description of the auto-injected standard-implementation
action. -/
def AUTO_DESC : String :=
  "Implementar de padrão/criar plano de manutenção para o conjunto afetado"

/-- The synthetic action appended when no plan exists. -/
def autoAcao (today : Nat) : PyVal :=
  .dict [("descricao", .str AUTO_DESC),
         ("categoria", .str "Implementação de padrão"),
         ("responsavel", .str "Definir"),
         ("prazo", .str (dateToStr (today + 30)))]

/-- `a.get("descricao", "")` as a string (theorems restrict actions to
dicts whose description is a string when present, where Python would not
raise on `.lower()`). -/
def getDescricao (a : PyVal) : String :=
  match dictGet a "descricao" with
  | .str s => s
  | _ => ""

/-- Contiguous-sublist test over characters (Python `x in y` on strings). -/
def isSubChars (needle : List Char) : List Char → Bool
  | [] => needle.isEmpty
  | c :: rest => needle.isPrefixOf (c :: rest) || isSubChars needle rest

/-- The case-insensitive substring guard on the canned description. -/
def jaTemAuto (acoes : List PyVal) : Bool :=
  acoes.any (fun a => isSubChars (pyLower AUTO_DESC).data (pyLower (getDescricao a)).data)

/-- The final action-count error. -/
def ERRO_ACAO : String := "Inclua pelo menos uma ação (descrição e responsável)."

/-- `validar_payload`: returns the error list together with the
post-validation `causas_linhas` and `acoes_lista` (the source mutates the
two lists in place). -/
def validar_payload (today : Nat) (payload : List (String × PyVal))
    (whys_grid causas_linhas acoes_lista : List PyVal) :
    List String × List PyVal × List PyVal :=
  let erros1 := all_filled (obrigEventoVals payload) OBRIG_LABELS
  let erros2 :=
    if pyEqStr (pyGet payload "existe_plano") "Sim" then all_filled (planVals payload) PLAN_LABELS
    else []
  let w := whysRowsAux whys_grid 1 causas_linhas 0
  let erros4 := if w.2.2 < 1 then [ERRO_MIN4] else []
  let acoes' :=
    if pyEqStr (pyGet payload "existe_plano") "Não" then
      if jaTemAuto acoes_lista then acoes_lista
      else acoes_lista ++ [autoAcao today]
    else acoes_lista
  let erros5 := if (acoes'.filter acaoConta).length < 1 then [ERRO_ACAO] else []
  (erros1 ++ erros2 ++ w.1 ++ erros4 ++ erros5, w.2.1, acoes')

/-! ## `_montar_db_payload`, `inserir_bda`, `atualizar_bda` (app.py 983-1097) -/

/-- The 43 columns written by insert and update, in `DB_COLUMNS` order. -/
def DB_COLUMNS : List String :=
  ["equipamento", "secao", "data_quebra", "hora_quebra", "tempo_reparo_h",
   "numero_ordem", "numero_bda", "turno", "centro_custo", "aconteceu_onde",
   "aconteceu_antes", "descricao_reparo", "modo_falha", "acoes_corretivas",
   "responsavel_corretiva", "quando_corretiva", "plano_sap", "descricao_plano",
   "responsavel_plano", "periodicidade_dias", "ultima_realizacao",
   "caminho_imagem", "criticidade", "categoria", "classificacao", "causa_raiz",
   "cinco_porques", "componentes", "custo_pecas", "custo_mo", "time_bda",
   "dono_bda", "categoria_evento", "cinco_porques_grid", "acoes_lista",
   "ultimo_executante", "status_plano", "existe_plano",
   "principio_funcionamento", "causas_linhas", "criado_por", "atualizado_por",
   "atualizado_em"]

/-- `_montar_db_payload`, already reordered by the `DB_COLUMNS`
comprehension (every `DB_COLUMNS` key is present in the literal dict, so the
comprehension only reorders).  `jsonDumps` models `json.dumps`
(`Option.none` = `TypeError` on a non-serializable value); `float()` /
`int()` may also raise, hence the `Option` result. -/
def montar_db_payload (jsonDumps : PyVal → Option String) (now_ts : String)
    (payload : List (String × PyVal)) (caminho_imagem : PyVal)
    (user_tag : String) (is_update : Bool) : Option (List (String × PyVal)) := do
  let g := pyGet payload
  let tempo ← pyFloatConv (pyOr (g "tempo_reparo_h") (.float 0))
  let perio ← pyIntConv (pyOr (g "periodicidade_dias") (.int 0))
  let gridS ← jsonDumps (pyOr (pyOr (g "_whys_grid") (g "cinco_porques_grid")) (.list []))
  let acoesS ← jsonDumps (pyOr (pyOr (g "_acoes_lista") (g "acoes_lista")) (.list []))
  let causasS ← jsonDumps (pyOr (pyOr (g "_causas_linhas") (g "causas_linhas")) (.list []))
  pure
    [("equipamento", g "equipamento"),
     ("secao", g "secao"),
     ("data_quebra", strOrNone (g "data_quebra")),
     ("hora_quebra", strOrNone (g "hora_quebra")),
     ("tempo_reparo_h", tempo),
     ("numero_ordem", g "numero_ordem"),
     ("numero_bda", g "numero_bda"),
     ("turno", g "turno"),
     ("centro_custo", PyVal.none),
     ("aconteceu_onde", g "aconteceu_onde"),
     ("aconteceu_antes", g "aconteceu_antes"),
     ("descricao_reparo", g "descricao_reparo"),
     ("modo_falha", g "modo_falha"),
     ("acoes_corretivas", PyVal.none),
     ("responsavel_corretiva", PyVal.none),
     ("quando_corretiva", PyVal.none),
     ("plano_sap", g "plano_sap"),
     ("descricao_plano", g "descricao_plano"),
     ("responsavel_plano", PyVal.none),
     ("periodicidade_dias", perio),
     ("ultima_realizacao", strOrNone (g "ultima_realizacao")),
     ("caminho_imagem", caminho_imagem),
     ("criticidade", PyVal.none),
     ("categoria", PyVal.none),
     ("classificacao", PyVal.none),
     ("causa_raiz", PyVal.none),
     ("cinco_porques", PyVal.none),
     ("componentes", g "componentes"),
     ("custo_pecas", PyVal.none),
     ("custo_mo", PyVal.none),
     ("time_bda", g "time_bda"),
     ("dono_bda", g "dono_bda"),
     ("categoria_evento", g "categoria_evento"),
     ("cinco_porques_grid", .str gridS),
     ("acoes_lista", .str acoesS),
     ("ultimo_executante", g "ultimo_executante"),
     ("status_plano", g "status_plano"),
     ("existe_plano", g "existe_plano"),
     ("principio_funcionamento", g "principio_funcionamento"),
     ("causas_linhas", .str causasS),
     ("criado_por", if is_update then PyVal.none else .str user_tag),
     ("atualizado_por", if is_update then .str user_tag else PyVal.none),
     ("atualizado_em", if is_update then .str now_ts else PyVal.none)]

/-- `inserir_bda`: the row handed to `INSERT` (`salvar` models
`salvar_imagem`; no upload means a `None` image path). -/
def inserir_bda (jsonDumps : PyVal → Option String) (salvar : PyVal → PyVal)
    (now_ts : String) (payload : List (String × PyVal)) (user_tag : String) :
    Option (List (String × PyVal)) :=
  let upload := pyGet payload "_imagem_upload"
  let img := if pyIsNone upload then PyVal.none else salvar upload
  montar_db_payload jsonDumps now_ts payload img user_tag false

/-- `atualizar_bda` as a transformation of the stored row it targets: every
`DB_COLUMNS` key of the row is overwritten with the freshly built payload
(the `id` key is only in the `WHERE`).  When the payload build raises, the
row is unchanged. -/
def atualizar_bda (jsonDumps : PyVal → Option String) (salvar : PyVal → PyVal)
    (now_ts : String) (prior : List (String × PyVal)) (payload : List (String × PyVal))
    (user_tag : String) (caminho_imagem_atual : PyVal) : List (String × PyVal) :=
  let upload := pyGet payload "_imagem_upload"
  let img := if pyIsNone upload then caminho_imagem_atual else salvar upload
  match montar_db_payload jsonDumps now_ts payload img user_tag true with
  | Option.some db => db.foldl (fun r kv => pySet r kv.1 kv.2) prior
  | Option.none => prior

/-! ## `ensure_schema` column migration (app.py 163-184) -/

/-- The additive-migration registry, in source order. -/
def NEW_COLS : List String :=
  ["time_bda", "dono_bda", "categoria_evento", "cinco_porques_grid",
   "acoes_lista", "ultimo_executante", "status_plano", "existe_plano",
   "principio_funcionamento", "causas_linhas", "criado_por", "atualizado_por",
   "atualizado_em"]

/-- The `ALTER TABLE ... ADD COLUMN` loop.  `fails c = true` models the
`ALTER` for column `c` raising.  Returns the final column list, the list of
columns for which an `ALTER` was issued (in order, including a failing
one), and the column whose failure aborted the loop, if any.  The loop body
has no exception handler, so a raise propagates and ends the loop. -/
def migrateCols (fails : String → Bool) : List String → List String →
    List String × List String × Option String
  | [], cols => (cols, [], Option.none)
  | c :: rest, cols =>
    if c ∈ cols then migrateCols fails rest cols
    else if fails c then (cols, [c], Option.some c)
    else
      let r := migrateCols fails rest (cols ++ [c])
      (r.1, c :: r.2.1, r.2.2)

/-- The migration part of `ensure_schema` run against an existing column
set. -/
def ensure_schema_migration (existing : List String) (fails : String → Bool) :
    List String × List String × Option String :=
  migrateCols fails NEW_COLS existing

/-! ## Dictionary lemmas -/

/-- Is a `date`? -/
def isDateV : PyVal → Bool
  | .date _ => true
  | _ => false

/-- Is a `time`? -/
def isTimeV : PyVal → Bool
  | .time _ => true
  | _ => false

/-- Is a Python float (including `nan`)? -/
def isFloatV : PyVal → Bool
  | .float _ => true
  | .nan => true
  | _ => false

/-- Is an int? -/
def isIntV : PyVal → Bool
  | .int _ => true
  | _ => false

/-- Is a structured (list/dict) value? -/
def isStructV : PyVal → Bool
  | .list _ => true
  | .dict _ => true
  | _ => false

/-- Event-field keys of the validator. -/
def OBRIG_KEYS : List String :=
  ["equipamento", "secao", "data_quebra", "hora_quebra", "tempo_reparo_h", "numero_ordem",
   "numero_bda", "turno", "time_bda", "dono_bda", "categoria_evento", "componentes",
   "principio_funcionamento", "aconteceu_onde", "aconteceu_antes", "descricao_reparo",
   "modo_falha"]

/-- Plan-field keys of the validator. -/
def PLAN_KEYS : List String :=
  ["plano_sap", "descricao_plano", "ultimo_executante", "periodicidade_dias",
   "ultima_realizacao", "status_plano"]

/-- Last-binding-wins lookup (the value a `SET` list leaves in a column). -/
def lookupLastV : List (String × PyVal) → String → Option PyVal
  | [], _ => Option.none
  | (k, v) :: rest, q =>
    match lookupLastV rest q with
    | Option.some w => Option.some w
    | Option.none => if k = q then Option.some v else Option.none

/-- C6 failing input: a payload whose every mandatory/plan requirement is
satisfied, except that the repair duration is `None`. -/
def c6_payload : List (String × PyVal) :=
  [("equipamento", PyVal.str "Bomba P-101"), ("secao", PyVal.str "Utilidades"),
   ("data_quebra", PyVal.date 738000), ("hora_quebra", PyVal.time ⟨14, 30, 0, 0⟩),
   ("tempo_reparo_h", PyVal.none),
   ("numero_ordem", PyVal.str "4500001"), ("numero_bda", PyVal.str "BDA-001"),
   ("turno", PyVal.str "1"), ("time_bda", PyVal.str "Equipe A"),
   ("dono_bda", PyVal.str "Maria"), ("categoria_evento", PyVal.str "Mecânica"),
   ("componentes", PyVal.str "Rolamento"),
   ("principio_funcionamento", PyVal.str "Bomba centrífuga de eixo horizontal"),
   ("aconteceu_onde", PyVal.str "Na área 2, durante a partida"),
   ("aconteceu_antes", PyVal.str "Vibração alta"),
   ("descricao_reparo", PyVal.str "Troca do rolamento"),
   ("modo_falha", PyVal.str "Desgaste por fadiga"),
   ("existe_plano", PyVal.str "Sim"), ("plano_sap", PyVal.str "PM-123"),
   ("descricao_plano", PyVal.str "Plano mensal de lubrificação"),
   ("ultimo_executante", PyVal.str "João"), ("periodicidade_dias", PyVal.int 30),
   ("ultima_realizacao", PyVal.date 737970), ("status_plano", PyVal.str "No prazo")]

/-- A deep-enough why grid for the C6 input (row 1 has 4 whys). -/
def c6_grid : List PyVal :=
  [PyVal.dict [("pq1", PyVal.str "a"), ("pq2", PyVal.str "b"), ("pq3", PyVal.str "c"),
    ("pq4", PyVal.str "d")],
   PyVal.dict [], PyVal.dict [], PyVal.dict [], PyVal.dict []]

/-- Causes for the C6 input. -/
def c6_causas : List PyVal :=
  [PyVal.dict [("causa", PyVal.str "Falta de lubrificação")],
   PyVal.dict [("causa", PyVal.str "x")], PyVal.dict [("causa", PyVal.str "x")],
   PyVal.dict [("causa", PyVal.str "x")], PyVal.dict [("causa", PyVal.str "x")]]

/-- One complete action for the C6 input. -/
def c6_acoes : List PyVal :=
  [PyVal.dict [("descricao", PyVal.str "Trocar rolamento e revisar plano"),
    ("categoria", PyVal.str "Corretiva"), ("responsavel", PyVal.str "José"),
    ("prazo", PyVal.str "data-738030")]]

/-- The scalar text fields of the round-trip claim (the image path and the
audit trio are excluded by the amendment). -/
def C7_TEXT_FIELDS : List String :=
  ["equipamento", "secao", "numero_ordem", "numero_bda", "turno", "time_bda",
   "dono_bda", "categoria_evento", "componentes", "principio_funcionamento",
   "aconteceu_onde", "aconteceu_antes", "descricao_reparo", "modo_falha",
   "plano_sap", "descricao_plano", "ultimo_executante", "status_plano"]

/-- A concrete Why-grid with one row of four filled Why positions. -/
def c7G : List PyVal :=
  [PyVal.dict [("pq1", PyVal.str "a"), ("pq2", PyVal.str "b"),
               ("pq3", PyVal.str "c"), ("pq4", PyVal.str "d")]]

/-- A concrete cause row linked to the Why line. -/
def c7C : List PyVal :=
  [PyVal.dict [("causa", PyVal.str "vedacao")]]

/-- A concrete JSON serializer distinguishing the three list shapes. -/
def c7jd : PyVal → Option String
  | PyVal.list [] => Option.some "[]"
  | PyVal.list (PyVal.dict (("pq1", _) :: _) :: _) => Option.some "G"
  | PyVal.list (PyVal.dict (("causa", _) :: _) :: _) => Option.some "C"
  | _ => Option.none

/-- The matching concrete JSON parser. -/
def c7js : String → Option PyVal :=
  fun s => if s = "[]" then Option.some (PyVal.list [])
    else if s = "G" then Option.some (PyVal.list c7G)
    else if s = "C" then Option.some (PyVal.list c7C)
    else Option.none

/-- A concrete pandas date parser recognizing exactly the rendering of
day 5. -/
def c7pd : String → Option Nat :=
  fun s => if s = dateToStr 5 then Option.some 5 else Option.none

/-- The clock time handed to the normalizer. -/
def c7now : PyTime := ⟨9, 0, 0, 0⟩

/-- A fully valid canonical payload: every mandatory event field filled,
no plan (`existe_plano = "Não"`), one deep Why line with its cause, typed
date/time/float/int fields, a supplied `caminho_imagem` and `criado_por`,
and no transient `_`-keys. -/
def c7p : List (String × PyVal) :=
  [("equipamento", PyVal.str "Bomba"),
   ("secao", PyVal.str "S1"),
   ("data_quebra", PyVal.date 5),
   ("hora_quebra", PyVal.time ⟨14, 30, 5, 0⟩),
   ("tempo_reparo_h", PyVal.float 2),
   ("numero_ordem", PyVal.str "100"),
   ("numero_bda", PyVal.str "BDA-1"),
   ("turno", PyVal.str "A"),
   ("time_bda", PyVal.str "T1"),
   ("dono_bda", PyVal.str "D"),
   ("categoria_evento", PyVal.str "Mecânica"),
   ("componentes", PyVal.str "Selo"),
   ("principio_funcionamento", PyVal.str "P"),
   ("aconteceu_onde", PyVal.str "O"),
   ("aconteceu_antes", PyVal.str "N"),
   ("descricao_reparo", PyVal.str "R"),
   ("modo_falha", PyVal.str "M"),
   ("plano_sap", PyVal.str "PS"),
   ("descricao_plano", PyVal.str "DP"),
   ("ultimo_executante", PyVal.str "UE"),
   ("status_plano", PyVal.str "SP"),
   ("existe_plano", PyVal.str "Não"),
   ("periodicidade_dias", PyVal.int 30),
   ("cinco_porques_grid", PyVal.list c7G),
   ("acoes_lista", PyVal.list []),
   ("causas_linhas", PyVal.list c7C),
   ("caminho_imagem", PyVal.str "foto.png"),
   ("criado_por", PyVal.str "orig")]

/-- The row `inserir_bda` stores for that payload. -/
def c7row : List (String × PyVal) :=
  (inserir_bda c7jd (fun v => v) "TS" c7p "alice [TAG]").getD []

theorem pyGet_pySet (d : List (String × PyVal)) (k : String) (v : PyVal) (q : String) :
    pyGet (pySet d k v) q = if k = q then v else pyGet d q := by
  induction d with
  | nil =>
    by_cases h : k = q <;> simp [pySet, pyGet, h]
  | cons hd tl ih =>
    obtain ⟨k', v'⟩ := hd
    by_cases h1 : k' = k
    · subst h1
      by_cases h2 : k' = q <;> simp [pySet, pyGet, h2]
    · by_cases h2 : k' = q
      · subst h2
        have hkq : ¬ k = k' := fun h => h1 h.symm
        simp [pySet, pyGet, h1, hkq]
      · simp [pySet, pyGet, h1, h2, ih]

theorem pySet_id (d : List (String × PyVal)) (k : String) (v : PyVal)
    (h1 : pyHasKey d k = true) (h2 : pyGet d k = v) : pySet d k v = d := by
  induction d with
  | nil => simp [pyHasKey] at h1
  | cons hd tl ih =>
    obtain ⟨k', v'⟩ := hd
    by_cases hk : k' = k
    · simp [pyGet, hk] at h2
      simp [pySet, hk, h2]
    · simp [pyHasKey, hk] at h1
      simp [pyGet, hk] at h2
      simp [pySet, hk, ih h1 h2]

theorem pyHasKey_pySet (d : List (String × PyVal)) (k : String) (v : PyVal) (q : String) :
    pyHasKey (pySet d k v) q = (k = q || pyHasKey d q) := by
  induction d with
  | nil => by_cases h : k = q <;> simp [pySet, pyHasKey, h]
  | cons hd tl ih =>
    obtain ⟨k', v'⟩ := hd
    by_cases h1 : k' = k
    · subst h1
      by_cases h2 : k' = q <;> simp [pySet, pyHasKey, h2]
    · by_cases h2 : k' = q
      · subst h2
        simp [pySet, pyHasKey, h1, ih]
      · simp [pySet, pyHasKey, h1, h2, ih]

theorem pySet_ne_nil (d : List (String × PyVal)) (k : String) (v : PyVal) :
    pySet d k v ≠ [] := by
  cases d with
  | nil => simp [pySet]
  | cons hd tl =>
    obtain ⟨k', v'⟩ := hd
    by_cases h : k' = k <;> simp [pySet, h]

/-! ## Per-step lemmas for the normalizer -/

theorem pyGet_normData_ne (pd : String → Option Nat) (t : Nat) (d : List (String × PyVal))
    (q : String) (h : q ≠ "data_quebra") : pyGet (normData pd t d) q = pyGet d q := by
  unfold normData
  rw [pyGet_pySet, if_neg (fun hh => h hh.symm)]

theorem pyGet_normData_eq (pd : String → Option Nat) (t : Nat) (d : List (String × PyVal)) :
    pyGet (normData pd t d) "data_quebra" =
      (match parse_date pd (pyGet d "data_quebra") with
       | Option.some n => PyVal.date n
       | Option.none => PyVal.date t) := by
  unfold normData
  rw [pyGet_pySet, if_pos rfl]

theorem pyGet_normHora_ne (now : PyTime) (d : List (String × PyVal)) (q : String)
    (h : q ≠ "hora_quebra") : pyGet (normHora now d) q = pyGet d q := by
  unfold normHora
  rw [pyGet_pySet, if_neg (fun hh => h hh.symm)]

theorem pyGet_normHora_eq (now : PyTime) (d : List (String × PyVal)) :
    pyGet (normHora now d) "hora_quebra" = PyVal.time (parse_time now (pyGet d "hora_quebra")) := by
  unfold normHora
  rw [pyGet_pySet, if_pos rfl]

theorem pyGet_normUltima_ne (pd : String → Option Nat) (d : List (String × PyVal)) (q : String)
    (h : q ≠ "ultima_realizacao") : pyGet (normUltima pd d) q = pyGet d q := by
  unfold normUltima
  rw [pyGet_pySet, if_neg (fun hh => h hh.symm)]

theorem pyGet_normUltima_eq (pd : String → Option Nat) (d : List (String × PyVal)) :
    pyGet (normUltima pd d) "ultima_realizacao" =
      (match parse_date pd (pyGet d "ultima_realizacao") with
       | Option.some n => PyVal.date n
       | Option.none => PyVal.none) := by
  unfold normUltima
  rw [pyGet_pySet, if_pos rfl]

theorem pyGet_normTempo_ne (d : List (String × PyVal)) (q : String)
    (h : q ≠ "tempo_reparo_h") : pyGet (normTempo d) q = pyGet d q := by
  unfold normTempo
  rw [pyGet_pySet, if_neg (fun hh => h hh.symm)]

theorem pyGet_normTempo_eq (d : List (String × PyVal)) :
    pyGet (normTempo d) "tempo_reparo_h" =
      (pyFloatConv (pyOr (pyGet d "tempo_reparo_h") (PyVal.float 0))).getD (PyVal.float 0) := by
  unfold normTempo
  rw [pyGet_pySet, if_pos rfl]

theorem pyGet_normPerio_ne (d : List (String × PyVal)) (q : String)
    (h : q ≠ "periodicidade_dias") : pyGet (normPerio d) q = pyGet d q := by
  unfold normPerio
  rw [pyGet_pySet, if_neg (fun hh => h hh.symm)]

theorem pyGet_normPerio_eq (d : List (String × PyVal)) :
    pyGet (normPerio d) "periodicidade_dias" =
      (pyIntConv (pyOr (pyGet d "periodicidade_dias") (PyVal.int 0))).getD (PyVal.int 0) := by
  unfold normPerio
  rw [pyGet_pySet, if_pos rfl]

theorem pyGet_normJson_ne (js : String → Option PyVal) (k : String) (d : List (String × PyVal))
    (q : String) (h : q ≠ k) : pyGet (normJson js k d) q = pyGet d q := by
  unfold normJson
  rw [pyGet_pySet, if_neg (fun hh => h hh.symm)]

theorem pyGet_normJson_eq (js : String → Option PyVal) (k : String) (d : List (String × PyVal)) :
    pyGet (normJson js k d) k = safe_json_loads js (pyGet d k) (PyVal.list []) := by
  unfold normJson
  rw [pyGet_pySet, if_pos rfl]

theorem pyGet_textStep (d : List (String × PyVal)) (k q : String) :
    pyGet (textStep d k) q =
      if q = k ∧ pyIsNone (pyGet d k) = true then PyVal.str "" else pyGet d q := by
  unfold textStep
  by_cases hN : pyIsNone (pyGet d k) = true
  · rw [if_pos hN, pyGet_pySet]
    by_cases hq : q = k
    · subst hq
      rw [if_pos rfl, if_pos ⟨rfl, hN⟩]
    · rw [if_neg (fun hh => hq hh.symm), if_neg (fun hh => hq hh.1)]
  · rw [if_neg hN, if_neg (fun hh => hN hh.2)]

theorem pyGet_foldl_textStep (L : List String) (d : List (String × PyVal)) (q : String) :
    pyGet (L.foldl textStep d) q =
      if q ∈ L ∧ pyIsNone (pyGet d q) = true then PyVal.str "" else pyGet d q := by
  induction L generalizing d with
  | nil => simp
  | cons k rest ih =>
    rw [List.foldl_cons, ih]
    by_cases hqk : q = k
    · subst hqk
      by_cases hN : pyIsNone (pyGet d q) = true
      · have h1 : pyGet (textStep d q) q = PyVal.str "" := by
          rw [pyGet_textStep, if_pos ⟨rfl, hN⟩]
        rw [h1]
        have h2 : ¬ (q ∈ rest ∧ pyIsNone (PyVal.str "") = true) := by simp [pyIsNone]
        rw [if_neg h2, if_pos ⟨List.mem_cons_self q rest, hN⟩]
      · have h1 : pyGet (textStep d q) q = pyGet d q := by
          rw [pyGet_textStep]
          have : ¬ (q = q ∧ pyIsNone (pyGet d q) = true) := fun hh => hN hh.2
          rw [if_neg this]
        rw [h1]
        simp [hN]
    · have h1 : pyGet (textStep d k) q = pyGet d q := by
        rw [pyGet_textStep]
        rw [if_neg (fun hh => hqk hh.1)]
      rw [h1]
      simp [hqk]

theorem pyGet_normTexts (d : List (String × PyVal)) (q : String) :
    pyGet (normTexts d) q =
      if q ∈ TEXT_KEYS ∧ pyIsNone (pyGet d q) = true then PyVal.str "" else pyGet d q :=
  pyGet_foldl_textStep TEXT_KEYS d q

theorem pyGet_normTexts_notmem (d : List (String × PyVal)) (q : String)
    (h : q ∉ TEXT_KEYS) : pyGet (normTexts d) q = pyGet d q := by
  rw [pyGet_normTexts]
  simp [h]

theorem pyGet_normExiste_ne (d : List (String × PyVal)) (q : String)
    (h : q ≠ "existe_plano") : pyGet (normExiste d) q = pyGet d q := by
  unfold normExiste
  by_cases hc : (pyEqStr (pyGet d "existe_plano") "Sim" || pyEqStr (pyGet d "existe_plano") "Não") = true
  · rw [if_pos hc]
  · rw [if_neg hc, pyGet_pySet, if_neg (fun hh => h hh.symm)]

theorem normExiste_flag (d : List (String × PyVal)) :
    pyEqStr (pyGet (normExiste d) "existe_plano") "Sim" = true ∨
    pyEqStr (pyGet (normExiste d) "existe_plano") "Não" = true := by
  unfold normExiste
  by_cases hc : (pyEqStr (pyGet d "existe_plano") "Sim" || pyEqStr (pyGet d "existe_plano") "Não") = true
  · rw [if_pos hc]
    rcases Bool.or_eq_true_iff.mp hc with h | h
    · exact Or.inl h
    · exact Or.inr h
  · rw [if_neg hc, pyGet_pySet]
    by_cases hp : pyTruthy (pyGet d "plano_sap") = true <;> simp [hp, pyEqStr]

/-! ## Value-shape helpers and fix-point lemmas -/

theorem pyFloatConv_isFloat (x v : PyVal) (h : pyFloatConv x = Option.some v) :
    isFloatV v = true := by
  cases x <;> simp [pyFloatConv] at h
  case int n => simp [← h, isFloatV]
  case float q => simp [← h, isFloatV]
  case nan => simp [← h, isFloatV]
  case bool b => simp [← h, isFloatV]
  case str s =>
    cases hq : pyStrToRat s with
    | none => rw [hq] at h; simp at h
    | some q => rw [hq] at h; simp at h; simp [← h, isFloatV]

theorem isFloatV_getD (x : PyVal) :
    isFloatV ((pyFloatConv x).getD (PyVal.float 0)) = true := by
  cases h : pyFloatConv x with
  | none => simp [isFloatV]
  | some v => simpa using pyFloatConv_isFloat x v h

theorem pyOr_float_self (v : PyVal) (h : isFloatV v = true) : pyOr v (PyVal.float 0) = v := by
  cases v <;> simp [isFloatV] at h
  case float q =>
    by_cases hq : q = 0
    · subst hq
      simp [pyOr, pyTruthy]
    · simp [pyOr, pyTruthy, hq]
  case nan => simp [pyOr, pyTruthy]

theorem pyFloatConv_float_self (v : PyVal) (h : isFloatV v = true) :
    pyFloatConv v = Option.some v := by
  cases v <;> simp [isFloatV] at h <;> simp [pyFloatConv]

theorem pyIntConv_isInt (x v : PyVal) (h : pyIntConv x = Option.some v) :
    isIntV v = true := by
  cases x <;> simp [pyIntConv] at h
  case int n => simp [← h, isIntV]
  case float q => simp [← h, isIntV]
  case bool b => simp [← h, isIntV]
  case str s =>
    cases hq : pyStrToInt s with
    | none => rw [hq] at h; simp at h
    | some n => rw [hq] at h; simp at h; simp [← h, isIntV]

theorem isIntV_getD (x : PyVal) :
    isIntV ((pyIntConv x).getD (PyVal.int 0)) = true := by
  cases h : pyIntConv x with
  | none => simp [isIntV]
  | some v => simpa using pyIntConv_isInt x v h

theorem pyOr_int_self (v : PyVal) (h : isIntV v = true) : pyOr v (PyVal.int 0) = v := by
  cases v <;> simp [isIntV] at h
  case int n =>
    by_cases hn : n = 0
    · subst hn
      simp [pyOr, pyTruthy]
    · simp [pyOr, pyTruthy, hn]

theorem pyIntConv_int_self (v : PyVal) (h : isIntV v = true) :
    pyIntConv v = Option.some v := by
  cases v <;> simp [isIntV] at h <;> simp [pyIntConv]

theorem safe_json_loads_struct (js : String → Option PyVal) (v dflt : PyVal)
    (h : isStructV v = true) : safe_json_loads js v dflt = v := by
  cases v <;> simp [isStructV] at h <;> simp [safe_json_loads]

theorem safe_json_loads_result_struct (js : String → Option PyVal) (text dflt : PyVal)
    (hjs : ∀ s v, js s = Option.some v → isStructV v = true) (hd : isStructV dflt = true) :
    isStructV (safe_json_loads js text dflt) = true := by
  cases text <;> simp [safe_json_loads, isStructV]
  all_goals try exact hd
  case str s =>
    by_cases hb : pyStrip s = ""
    · simp [hb]
      exact hd
    · simp [hb]
      cases hv : js s with
      | none => simpa using hd
      | some v => simpa using hjs s v hv

/-! ## Key-presence monotonicity through the normalizer steps -/

theorem pyHasKey_pySet_mono (d : List (String × PyVal)) (k : String) (v : PyVal) (q : String)
    (h : pyHasKey d q = true) : pyHasKey (pySet d k v) q = true := by
  rw [pyHasKey_pySet, h, Bool.or_true]

theorem pyHasKey_textStep_mono (d : List (String × PyVal)) (k q : String)
    (h : pyHasKey d q = true) : pyHasKey (textStep d k) q = true := by
  unfold textStep
  by_cases hN : pyIsNone (pyGet d k) = true
  · rw [if_pos hN]
    exact pyHasKey_pySet_mono d k _ q h
  · rw [if_neg hN]
    exact h

theorem pyHasKey_normTexts_mono (d : List (String × PyVal)) (q : String)
    (h : pyHasKey d q = true) : pyHasKey (normTexts d) q = true := by
  unfold normTexts
  generalize TEXT_KEYS = L
  induction L generalizing d with
  | nil => exact h
  | cons k rest ih =>
    rw [List.foldl_cons]
    exact ih (textStep d k) (pyHasKey_textStep_mono d k q h)

theorem pyHasKey_normExiste_mono (d : List (String × PyVal)) (q : String)
    (h : pyHasKey d q = true) : pyHasKey (normExiste d) q = true := by
  unfold normExiste
  by_cases hc : (pyEqStr (pyGet d "existe_plano") "Sim" || pyEqStr (pyGet d "existe_plano") "Não") = true
  · rw [if_pos hc]; exact h
  · rw [if_neg hc]
    exact pyHasKey_pySet_mono d _ _ q h

theorem pyHasKey_normData_mono (pd : String → Option Nat) (t : Nat) (d : List (String × PyVal))
    (q : String) (h : pyHasKey d q = true) : pyHasKey (normData pd t d) q = true :=
  pyHasKey_pySet_mono d _ _ q h

theorem pyHasKey_normHora_mono (now : PyTime) (d : List (String × PyVal)) (q : String)
    (h : pyHasKey d q = true) : pyHasKey (normHora now d) q = true :=
  pyHasKey_pySet_mono d _ _ q h

theorem pyHasKey_normUltima_mono (pd : String → Option Nat) (d : List (String × PyVal))
    (q : String) (h : pyHasKey d q = true) : pyHasKey (normUltima pd d) q = true :=
  pyHasKey_pySet_mono d _ _ q h

theorem pyHasKey_normTempo_mono (d : List (String × PyVal)) (q : String)
    (h : pyHasKey d q = true) : pyHasKey (normTempo d) q = true :=
  pyHasKey_pySet_mono d _ _ q h

theorem pyHasKey_normPerio_mono (d : List (String × PyVal)) (q : String)
    (h : pyHasKey d q = true) : pyHasKey (normPerio d) q = true :=
  pyHasKey_pySet_mono d _ _ q h

theorem pyHasKey_normJson_mono (js : String → Option PyVal) (k : String)
    (d : List (String × PyVal)) (q : String) (h : pyHasKey d q = true) :
    pyHasKey (normJson js k d) q = true :=
  pyHasKey_pySet_mono d _ _ q h

theorem pyHasKey_pySet_self (d : List (String × PyVal)) (k : String) (v : PyVal) :
    pyHasKey (pySet d k v) k = true := by
  rw [pyHasKey_pySet]
  simp

/-! ## Identity lemmas for a second normalization pass -/

theorem foldl_textStep_id (L : List String) (d : List (String × PyVal))
    (h : ∀ k ∈ L, pyIsNone (pyGet d k) = false) : L.foldl textStep d = d := by
  induction L with
  | nil => rfl
  | cons k rest ih =>
    rw [List.foldl_cons]
    have hk : textStep d k = d := by
      unfold textStep
      rw [if_neg (by simp [h k (List.mem_cons_self k rest)])]
    rw [hk]
    exact ih (fun k' hk' => h k' (List.mem_cons_of_mem _ hk'))

theorem normTexts_id (d : List (String × PyVal))
    (h : ∀ k ∈ TEXT_KEYS, pyIsNone (pyGet d k) = false) : normTexts d = d :=
  foldl_textStep_id TEXT_KEYS d h

theorem normExiste_id (d : List (String × PyVal))
    (h : pyEqStr (pyGet d "existe_plano") "Sim" = true ∨
         pyEqStr (pyGet d "existe_plano") "Não" = true) : normExiste d = d := by
  unfold normExiste
  rcases h with h | h <;> simp [h]

/-! ## Non-emptiness through the normalizer -/

theorem textStep_ne_nil (d : List (String × PyVal)) (k : String) (h : d ≠ []) :
    textStep d k ≠ [] := by
  unfold textStep
  by_cases hN : pyIsNone (pyGet d k) = true
  · rw [if_pos hN]; exact pySet_ne_nil d k _
  · rw [if_neg hN]; exact h

theorem foldl_textStep_ne_nil (L : List String) (d : List (String × PyVal)) (h : d ≠ []) :
    L.foldl textStep d ≠ [] := by
  induction L generalizing d with
  | nil => exact h
  | cons k rest ih =>
    rw [List.foldl_cons]
    exact ih (textStep d k) (textStep_ne_nil d k h)

theorem normExiste_ne_nil (d : List (String × PyVal)) (h : d ≠ []) : normExiste d ≠ [] := by
  unfold normExiste
  by_cases hc : (pyEqStr (pyGet d "existe_plano") "Sim" || pyEqStr (pyGet d "existe_plano") "Não") = true
  · rw [if_pos hc]; exact h
  · rw [if_neg hc]; exact pySet_ne_nil d _ _

/-! ## Substring facts -/

theorem isPrefixOf_self_chars (l : List Char) : l.isPrefixOf l = true := by
  induction l with
  | nil => rfl
  | cons c rest ih => simp [List.isPrefixOf, ih]

theorem isSubChars_self (l : List Char) : isSubChars l l = true := by
  cases l with
  | nil => rfl
  | cons c rest => simp [isSubChars, isPrefixOf_self_chars]

/-! ## Per-key characterization of a normalization pass -/

theorem normalizar_eq_stack (pd : String → Option Nat) (js : String → Option PyVal)
    (t : Nat) (now : PyTime) (d : List (String × PyVal)) (h : d ≠ []) :
    normalizar_dados_bda pd js t now d =
      normExiste (normTexts (normJson js "causas_linhas" (normJson js "acoes_lista"
        (normJson js "cinco_porques_grid" (normPerio (normTempo (normUltima pd
          (normHora now (normData pd t d))))))))) := by
  unfold normalizar_dados_bda
  rw [if_neg (by simpa [List.isEmpty_iff] using h)]

theorem pyGet_normalizar_data (pd : String → Option Nat) (js : String → Option PyVal)
    (t : Nat) (now : PyTime) (d : List (String × PyVal)) (h : d ≠ []) :
    pyGet (normalizar_dados_bda pd js t now d) "data_quebra" =
      (match parse_date pd (pyGet d "data_quebra") with
       | Option.some n => PyVal.date n
       | Option.none => PyVal.date t) := by
  rw [normalizar_eq_stack pd js t now d h,
      pyGet_normExiste_ne _ _ (by decide), pyGet_normTexts_notmem _ _ (by decide),
      pyGet_normJson_ne _ _ _ _ (by decide), pyGet_normJson_ne _ _ _ _ (by decide),
      pyGet_normJson_ne _ _ _ _ (by decide), pyGet_normPerio_ne _ _ (by decide),
      pyGet_normTempo_ne _ _ (by decide), pyGet_normUltima_ne _ _ _ (by decide),
      pyGet_normHora_ne _ _ _ (by decide), pyGet_normData_eq]

theorem pyGet_normalizar_hora (pd : String → Option Nat) (js : String → Option PyVal)
    (t : Nat) (now : PyTime) (d : List (String × PyVal)) (h : d ≠ []) :
    pyGet (normalizar_dados_bda pd js t now d) "hora_quebra" =
      PyVal.time (parse_time now (pyGet d "hora_quebra")) := by
  rw [normalizar_eq_stack pd js t now d h,
      pyGet_normExiste_ne _ _ (by decide), pyGet_normTexts_notmem _ _ (by decide),
      pyGet_normJson_ne _ _ _ _ (by decide), pyGet_normJson_ne _ _ _ _ (by decide),
      pyGet_normJson_ne _ _ _ _ (by decide), pyGet_normPerio_ne _ _ (by decide),
      pyGet_normTempo_ne _ _ (by decide), pyGet_normUltima_ne _ _ _ (by decide),
      pyGet_normHora_eq]
  rw [pyGet_normData_ne _ _ _ _ (by decide)]

theorem pyGet_normalizar_ultima (pd : String → Option Nat) (js : String → Option PyVal)
    (t : Nat) (now : PyTime) (d : List (String × PyVal)) (h : d ≠ []) :
    pyGet (normalizar_dados_bda pd js t now d) "ultima_realizacao" =
      (match parse_date pd (pyGet d "ultima_realizacao") with
       | Option.some n => PyVal.date n
       | Option.none => PyVal.none) := by
  rw [normalizar_eq_stack pd js t now d h,
      pyGet_normExiste_ne _ _ (by decide), pyGet_normTexts_notmem _ _ (by decide),
      pyGet_normJson_ne _ _ _ _ (by decide), pyGet_normJson_ne _ _ _ _ (by decide),
      pyGet_normJson_ne _ _ _ _ (by decide), pyGet_normPerio_ne _ _ (by decide),
      pyGet_normTempo_ne _ _ (by decide), pyGet_normUltima_eq]
  rw [pyGet_normHora_ne _ _ _ (by decide), pyGet_normData_ne _ _ _ _ (by decide)]

theorem pyGet_normalizar_tempo (pd : String → Option Nat) (js : String → Option PyVal)
    (t : Nat) (now : PyTime) (d : List (String × PyVal)) (h : d ≠ []) :
    pyGet (normalizar_dados_bda pd js t now d) "tempo_reparo_h" =
      (pyFloatConv (pyOr (pyGet d "tempo_reparo_h") (PyVal.float 0))).getD (PyVal.float 0) := by
  rw [normalizar_eq_stack pd js t now d h,
      pyGet_normExiste_ne _ _ (by decide), pyGet_normTexts_notmem _ _ (by decide),
      pyGet_normJson_ne _ _ _ _ (by decide), pyGet_normJson_ne _ _ _ _ (by decide),
      pyGet_normJson_ne _ _ _ _ (by decide), pyGet_normPerio_ne _ _ (by decide),
      pyGet_normTempo_eq]
  rw [pyGet_normUltima_ne _ _ _ (by decide), pyGet_normHora_ne _ _ _ (by decide),
      pyGet_normData_ne _ _ _ _ (by decide)]

theorem pyGet_normalizar_perio (pd : String → Option Nat) (js : String → Option PyVal)
    (t : Nat) (now : PyTime) (d : List (String × PyVal)) (h : d ≠ []) :
    pyGet (normalizar_dados_bda pd js t now d) "periodicidade_dias" =
      (pyIntConv (pyOr (pyGet d "periodicidade_dias") (PyVal.int 0))).getD (PyVal.int 0) := by
  rw [normalizar_eq_stack pd js t now d h,
      pyGet_normExiste_ne _ _ (by decide), pyGet_normTexts_notmem _ _ (by decide),
      pyGet_normJson_ne _ _ _ _ (by decide), pyGet_normJson_ne _ _ _ _ (by decide),
      pyGet_normJson_ne _ _ _ _ (by decide), pyGet_normPerio_eq]
  rw [pyGet_normTempo_ne _ _ (by decide), pyGet_normUltima_ne _ _ _ (by decide),
      pyGet_normHora_ne _ _ _ (by decide), pyGet_normData_ne _ _ _ _ (by decide)]

theorem pyGet_normalizar_grid (pd : String → Option Nat) (js : String → Option PyVal)
    (t : Nat) (now : PyTime) (d : List (String × PyVal)) (h : d ≠ []) :
    pyGet (normalizar_dados_bda pd js t now d) "cinco_porques_grid" =
      safe_json_loads js (pyGet d "cinco_porques_grid") (PyVal.list []) := by
  rw [normalizar_eq_stack pd js t now d h,
      pyGet_normExiste_ne _ _ (by decide), pyGet_normTexts_notmem _ _ (by decide),
      pyGet_normJson_ne _ _ _ _ (by decide), pyGet_normJson_ne _ _ _ _ (by decide),
      pyGet_normJson_eq]
  rw [pyGet_normPerio_ne _ _ (by decide), pyGet_normTempo_ne _ _ (by decide),
      pyGet_normUltima_ne _ _ _ (by decide), pyGet_normHora_ne _ _ _ (by decide),
      pyGet_normData_ne _ _ _ _ (by decide)]

theorem pyGet_normalizar_acoes (pd : String → Option Nat) (js : String → Option PyVal)
    (t : Nat) (now : PyTime) (d : List (String × PyVal)) (h : d ≠ []) :
    pyGet (normalizar_dados_bda pd js t now d) "acoes_lista" =
      safe_json_loads js (pyGet d "acoes_lista") (PyVal.list []) := by
  rw [normalizar_eq_stack pd js t now d h,
      pyGet_normExiste_ne _ _ (by decide), pyGet_normTexts_notmem _ _ (by decide),
      pyGet_normJson_ne _ _ _ _ (by decide), pyGet_normJson_eq]
  rw [pyGet_normJson_ne _ _ _ _ (by decide), pyGet_normPerio_ne _ _ (by decide),
      pyGet_normTempo_ne _ _ (by decide), pyGet_normUltima_ne _ _ _ (by decide),
      pyGet_normHora_ne _ _ _ (by decide), pyGet_normData_ne _ _ _ _ (by decide)]

theorem pyGet_normalizar_causas (pd : String → Option Nat) (js : String → Option PyVal)
    (t : Nat) (now : PyTime) (d : List (String × PyVal)) (h : d ≠ []) :
    pyGet (normalizar_dados_bda pd js t now d) "causas_linhas" =
      safe_json_loads js (pyGet d "causas_linhas") (PyVal.list []) := by
  rw [normalizar_eq_stack pd js t now d h,
      pyGet_normExiste_ne _ _ (by decide), pyGet_normTexts_notmem _ _ (by decide),
      pyGet_normJson_eq]
  rw [pyGet_normJson_ne _ _ _ _ (by decide), pyGet_normJson_ne _ _ _ _ (by decide),
      pyGet_normPerio_ne _ _ (by decide), pyGet_normTempo_ne _ _ (by decide),
      pyGet_normUltima_ne _ _ _ (by decide), pyGet_normHora_ne _ _ _ (by decide),
      pyGet_normData_ne _ _ _ _ (by decide)]

theorem pyGet_normalizar_text (pd : String → Option Nat) (js : String → Option PyVal)
    (t : Nat) (now : PyTime) (d : List (String × PyVal)) (h : d ≠ []) (k : String)
    (hk : k ∈ TEXT_KEYS) (h1 : k ≠ "existe_plano") (h2 : k ≠ "data_quebra")
    (h3 : k ≠ "hora_quebra") (h4 : k ≠ "ultima_realizacao") (h5 : k ≠ "tempo_reparo_h")
    (h6 : k ≠ "periodicidade_dias") (h7 : k ≠ "cinco_porques_grid")
    (h8 : k ≠ "acoes_lista") (h9 : k ≠ "causas_linhas") :
    pyGet (normalizar_dados_bda pd js t now d) k =
      (if pyIsNone (pyGet d k) = true then PyVal.str "" else pyGet d k) := by
  rw [normalizar_eq_stack pd js t now d h, pyGet_normExiste_ne _ _ h1, pyGet_normTexts]
  rw [pyGet_normJson_ne _ _ _ _ h9, pyGet_normJson_ne _ _ _ _ h8,
      pyGet_normJson_ne _ _ _ _ h7, pyGet_normPerio_ne _ _ h6, pyGet_normTempo_ne _ _ h5,
      pyGet_normUltima_ne _ _ _ h4, pyGet_normHora_ne _ _ _ h3, pyGet_normData_ne _ _ _ _ h2]
  by_cases hN : pyIsNone (pyGet d k) = true
  · rw [if_pos ⟨hk, hN⟩, if_pos hN]
  · rw [if_neg (fun hh => hN hh.2), if_neg hN]

theorem pyEqStr_not_none (v : PyVal) (s : String) (h : pyEqStr v s = true) :
    pyIsNone v = false := by
  cases v <;> simp [pyEqStr] at h <;> simp [pyIsNone]

theorem pyGet_normalizar_existe_keep (pd : String → Option Nat) (js : String → Option PyVal)
    (t : Nat) (now : PyTime) (d : List (String × PyVal)) (h : d ≠ [])
    (hv : pyEqStr (pyGet d "existe_plano") "Sim" = true ∨
          pyEqStr (pyGet d "existe_plano") "Não" = true) :
    pyGet (normalizar_dados_bda pd js t now d) "existe_plano" = pyGet d "existe_plano" := by
  rw [normalizar_eq_stack pd js t now d h]
  have hNN : pyIsNone (pyGet d "existe_plano") = false := by
    rcases hv with hv | hv <;> exact pyEqStr_not_none _ _ hv
  have hinner : pyGet (normTexts (normJson js "causas_linhas" (normJson js "acoes_lista"
      (normJson js "cinco_porques_grid" (normPerio (normTempo (normUltima pd
        (normHora now (normData pd t d))))))))) "existe_plano" = pyGet d "existe_plano" := by
    rw [pyGet_normTexts,
        pyGet_normJson_ne _ _ _ _ (by decide), pyGet_normJson_ne _ _ _ _ (by decide),
        pyGet_normJson_ne _ _ _ _ (by decide), pyGet_normPerio_ne _ _ (by decide),
        pyGet_normTempo_ne _ _ (by decide), pyGet_normUltima_ne _ _ _ (by decide),
        pyGet_normHora_ne _ _ _ (by decide), pyGet_normData_ne _ _ _ _ (by decide),
        if_neg (fun hh => by rw [hNN] at hh; exact Bool.false_ne_true hh.2)]
  unfold normExiste
  rw [hinner]
  rcases hv with hv | hv <;> simp [hv] <;> exact hinner

/-! ## Key presence in a normalized record -/

theorem pyHasKey_normalizar_data (pd : String → Option Nat) (js : String → Option PyVal)
    (t : Nat) (now : PyTime) (d : List (String × PyVal)) (h : d ≠ []) :
    pyHasKey (normalizar_dados_bda pd js t now d) "data_quebra" = true := by
  rw [normalizar_eq_stack pd js t now d h]
  apply pyHasKey_normExiste_mono
  apply pyHasKey_normTexts_mono
  apply pyHasKey_normJson_mono
  apply pyHasKey_normJson_mono
  apply pyHasKey_normJson_mono
  apply pyHasKey_normPerio_mono
  apply pyHasKey_normTempo_mono
  apply pyHasKey_normUltima_mono
  apply pyHasKey_normHora_mono
  unfold normData
  exact pyHasKey_pySet_self _ _ _

theorem pyHasKey_normalizar_hora (pd : String → Option Nat) (js : String → Option PyVal)
    (t : Nat) (now : PyTime) (d : List (String × PyVal)) (h : d ≠ []) :
    pyHasKey (normalizar_dados_bda pd js t now d) "hora_quebra" = true := by
  rw [normalizar_eq_stack pd js t now d h]
  apply pyHasKey_normExiste_mono
  apply pyHasKey_normTexts_mono
  apply pyHasKey_normJson_mono
  apply pyHasKey_normJson_mono
  apply pyHasKey_normJson_mono
  apply pyHasKey_normPerio_mono
  apply pyHasKey_normTempo_mono
  apply pyHasKey_normUltima_mono
  unfold normHora
  exact pyHasKey_pySet_self _ _ _

theorem pyHasKey_normalizar_ultima (pd : String → Option Nat) (js : String → Option PyVal)
    (t : Nat) (now : PyTime) (d : List (String × PyVal)) (h : d ≠ []) :
    pyHasKey (normalizar_dados_bda pd js t now d) "ultima_realizacao" = true := by
  rw [normalizar_eq_stack pd js t now d h]
  apply pyHasKey_normExiste_mono
  apply pyHasKey_normTexts_mono
  apply pyHasKey_normJson_mono
  apply pyHasKey_normJson_mono
  apply pyHasKey_normJson_mono
  apply pyHasKey_normPerio_mono
  apply pyHasKey_normTempo_mono
  unfold normUltima
  exact pyHasKey_pySet_self _ _ _

theorem pyHasKey_normalizar_tempo (pd : String → Option Nat) (js : String → Option PyVal)
    (t : Nat) (now : PyTime) (d : List (String × PyVal)) (h : d ≠ []) :
    pyHasKey (normalizar_dados_bda pd js t now d) "tempo_reparo_h" = true := by
  rw [normalizar_eq_stack pd js t now d h]
  apply pyHasKey_normExiste_mono
  apply pyHasKey_normTexts_mono
  apply pyHasKey_normJson_mono
  apply pyHasKey_normJson_mono
  apply pyHasKey_normJson_mono
  apply pyHasKey_normPerio_mono
  unfold normTempo
  exact pyHasKey_pySet_self _ _ _

theorem pyHasKey_normalizar_perio (pd : String → Option Nat) (js : String → Option PyVal)
    (t : Nat) (now : PyTime) (d : List (String × PyVal)) (h : d ≠ []) :
    pyHasKey (normalizar_dados_bda pd js t now d) "periodicidade_dias" = true := by
  rw [normalizar_eq_stack pd js t now d h]
  apply pyHasKey_normExiste_mono
  apply pyHasKey_normTexts_mono
  apply pyHasKey_normJson_mono
  apply pyHasKey_normJson_mono
  apply pyHasKey_normJson_mono
  unfold normPerio
  exact pyHasKey_pySet_self _ _ _

theorem pyHasKey_normalizar_grid (pd : String → Option Nat) (js : String → Option PyVal)
    (t : Nat) (now : PyTime) (d : List (String × PyVal)) (h : d ≠ []) :
    pyHasKey (normalizar_dados_bda pd js t now d) "cinco_porques_grid" = true := by
  rw [normalizar_eq_stack pd js t now d h]
  apply pyHasKey_normExiste_mono
  apply pyHasKey_normTexts_mono
  apply pyHasKey_normJson_mono
  apply pyHasKey_normJson_mono
  unfold normJson
  exact pyHasKey_pySet_self _ _ _

theorem pyHasKey_normalizar_acoes (pd : String → Option Nat) (js : String → Option PyVal)
    (t : Nat) (now : PyTime) (d : List (String × PyVal)) (h : d ≠ []) :
    pyHasKey (normalizar_dados_bda pd js t now d) "acoes_lista" = true := by
  rw [normalizar_eq_stack pd js t now d h]
  apply pyHasKey_normExiste_mono
  apply pyHasKey_normTexts_mono
  apply pyHasKey_normJson_mono
  unfold normJson
  exact pyHasKey_pySet_self _ _ _

theorem pyHasKey_normalizar_causas (pd : String → Option Nat) (js : String → Option PyVal)
    (t : Nat) (now : PyTime) (d : List (String × PyVal)) (h : d ≠ []) :
    pyHasKey (normalizar_dados_bda pd js t now d) "causas_linhas" = true := by
  rw [normalizar_eq_stack pd js t now d h]
  apply pyHasKey_normExiste_mono
  apply pyHasKey_normTexts_mono
  unfold normJson
  exact pyHasKey_pySet_self _ _ _

/-- Text keys of a normalized record are never `None`. -/
theorem normalizar_text_not_none (pd : String → Option Nat) (js : String → Option PyVal)
    (t : Nat) (now : PyTime) (d : List (String × PyVal)) (h : d ≠ []) (k : String)
    (hk : k ∈ TEXT_KEYS) :
    pyIsNone (pyGet (normalizar_dados_bda pd js t now d) k) = false := by
  by_cases he : k = "existe_plano"
  · subst he
    rw [normalizar_eq_stack pd js t now d h]
    rcases normExiste_flag (normTexts (normJson js "causas_linhas" (normJson js "acoes_lista"
        (normJson js "cinco_porques_grid" (normPerio (normTempo (normUltima pd
          (normHora now (normData pd t d))))))))) with hs | hs
    · exact pyEqStr_not_none _ _ hs
    · exact pyEqStr_not_none _ _ hs
  · have h2 : k ≠ "data_quebra" := fun hh => by rw [hh] at hk; exact absurd hk (by decide)
    have h3 : k ≠ "hora_quebra" := fun hh => by rw [hh] at hk; exact absurd hk (by decide)
    have h4 : k ≠ "ultima_realizacao" := fun hh => by rw [hh] at hk; exact absurd hk (by decide)
    have h5 : k ≠ "tempo_reparo_h" := fun hh => by rw [hh] at hk; exact absurd hk (by decide)
    have h6 : k ≠ "periodicidade_dias" := fun hh => by rw [hh] at hk; exact absurd hk (by decide)
    have h7 : k ≠ "cinco_porques_grid" := fun hh => by rw [hh] at hk; exact absurd hk (by decide)
    have h8 : k ≠ "acoes_lista" := fun hh => by rw [hh] at hk; exact absurd hk (by decide)
    have h9 : k ≠ "causas_linhas" := fun hh => by rw [hh] at hk; exact absurd hk (by decide)
    rw [pyGet_normalizar_text pd js t now d h k hk he h2 h3 h4 h5 h6 h7 h8 h9]
    by_cases hN : pyIsNone (pyGet d k) = true
    · rw [if_pos hN]
      rfl
    · rw [if_neg hN]
      cases hb : pyIsNone (pyGet d k) with
      | false => rfl
      | true => exact absurd hb hN

/-- A normalized record is empty exactly when the input was. -/
theorem normalizar_ne_nil (pd : String → Option Nat) (js : String → Option PyVal)
    (t : Nat) (now : PyTime) (d : List (String × PyVal)) (h : d ≠ []) :
    normalizar_dados_bda pd js t now d ≠ [] := by
  rw [normalizar_eq_stack pd js t now d h]
  apply normExiste_ne_nil
  apply foldl_textStep_ne_nil
  apply pySet_ne_nil

/-- `normalizar_dados_bda` on an empty record. -/
theorem normalizar_nil (pd : String → Option Nat) (js : String → Option PyVal)
    (t : Nat) (now : PyTime) : normalizar_dados_bda pd js t now [] = [] := by
  unfold normalizar_dados_bda
  simp

/-- Under a structured JSON parser, normalization is idempotent (the clock
may differ between the two passes). -/
theorem normalizar_idem (pd : String → Option Nat) (js : String → Option PyVal)
    (hjs : ∀ s v, js s = Option.some v → isStructV v = true)
    (t1 t2 : Nat) (n1 n2 : PyTime) (d : List (String × PyVal)) :
    normalizar_dados_bda pd js t2 n2 (normalizar_dados_bda pd js t1 n1 d) =
      normalizar_dados_bda pd js t1 n1 d := by
  by_cases hd : d = []
  · subst hd
    rw [normalizar_nil, normalizar_nil]
  · have hdne : d ≠ [] := hd
    have hne : normalizar_dados_bda pd js t1 n1 d ≠ [] := normalizar_ne_nil pd js t1 n1 d hdne
    rw [normalizar_eq_stack pd js t2 n2 (normalizar_dados_bda pd js t1 n1 d) hne]
    have ha : ∃ a, pyGet (normalizar_dados_bda pd js t1 n1 d) "data_quebra" = PyVal.date a := by
      rw [pyGet_normalizar_data pd js t1 n1 d hdne]
      cases parse_date pd (pyGet d "data_quebra") <;> exact ⟨_, rfl⟩
    obtain ⟨a, ha⟩ := ha
    have s1 : normData pd t2 (normalizar_dados_bda pd js t1 n1 d) =
        normalizar_dados_bda pd js t1 n1 d := by
      unfold normData
      rw [ha]
      exact pySet_id _ _ _ (pyHasKey_normalizar_data pd js t1 n1 d hdne) ha
    have hb : pyGet (normalizar_dados_bda pd js t1 n1 d) "hora_quebra" =
        PyVal.time (parse_time n1 (pyGet d "hora_quebra")) :=
      pyGet_normalizar_hora pd js t1 n1 d hdne
    have s2 : normHora n2 (normalizar_dados_bda pd js t1 n1 d) =
        normalizar_dados_bda pd js t1 n1 d := by
      unfold normHora
      rw [hb]
      exact pySet_id _ _ _ (pyHasKey_normalizar_hora pd js t1 n1 d hdne) hb
    have s3 : normUltima pd (normalizar_dados_bda pd js t1 n1 d) =
        normalizar_dados_bda pd js t1 n1 d := by
      unfold normUltima
      cases hpu : parse_date pd (pyGet d "ultima_realizacao") with
      | none =>
        have hu : pyGet (normalizar_dados_bda pd js t1 n1 d) "ultima_realizacao" = PyVal.none := by
          rw [pyGet_normalizar_ultima pd js t1 n1 d hdne, hpu]
        rw [hu]
        exact pySet_id _ _ _ (pyHasKey_normalizar_ultima pd js t1 n1 d hdne) hu
      | some m =>
        have hu : pyGet (normalizar_dados_bda pd js t1 n1 d) "ultima_realizacao" =
            PyVal.date m := by
          rw [pyGet_normalizar_ultima pd js t1 n1 d hdne, hpu]
        rw [hu]
        exact pySet_id _ _ _ (pyHasKey_normalizar_ultima pd js t1 n1 d hdne) hu
    have ht : pyGet (normalizar_dados_bda pd js t1 n1 d) "tempo_reparo_h" =
        (pyFloatConv (pyOr (pyGet d "tempo_reparo_h") (PyVal.float 0))).getD (PyVal.float 0) :=
      pyGet_normalizar_tempo pd js t1 n1 d hdne
    have hfl : isFloatV ((pyFloatConv (pyOr (pyGet d "tempo_reparo_h") (PyVal.float 0))).getD
        (PyVal.float 0)) = true := isFloatV_getD _
    have s4 : normTempo (normalizar_dados_bda pd js t1 n1 d) =
        normalizar_dados_bda pd js t1 n1 d := by
      unfold normTempo
      rw [ht, pyOr_float_self _ hfl, pyFloatConv_float_self _ hfl]
      exact pySet_id _ _ _ (pyHasKey_normalizar_tempo pd js t1 n1 d hdne) ht
    have hp : pyGet (normalizar_dados_bda pd js t1 n1 d) "periodicidade_dias" =
        (pyIntConv (pyOr (pyGet d "periodicidade_dias") (PyVal.int 0))).getD (PyVal.int 0) :=
      pyGet_normalizar_perio pd js t1 n1 d hdne
    have hil : isIntV ((pyIntConv (pyOr (pyGet d "periodicidade_dias") (PyVal.int 0))).getD
        (PyVal.int 0)) = true := isIntV_getD _
    have s5 : normPerio (normalizar_dados_bda pd js t1 n1 d) =
        normalizar_dados_bda pd js t1 n1 d := by
      unfold normPerio
      rw [hp, pyOr_int_self _ hil, pyIntConv_int_self _ hil]
      exact pySet_id _ _ _ (pyHasKey_normalizar_perio pd js t1 n1 d hdne) hp
    have hg : pyGet (normalizar_dados_bda pd js t1 n1 d) "cinco_porques_grid" =
        safe_json_loads js (pyGet d "cinco_porques_grid") (PyVal.list []) :=
      pyGet_normalizar_grid pd js t1 n1 d hdne
    have s6 : normJson js "cinco_porques_grid" (normalizar_dados_bda pd js t1 n1 d) =
        normalizar_dados_bda pd js t1 n1 d := by
      unfold normJson
      rw [hg, safe_json_loads_struct js _ _
        (safe_json_loads_result_struct js (pyGet d "cinco_porques_grid") (PyVal.list []) hjs rfl)]
      exact pySet_id _ _ _ (pyHasKey_normalizar_grid pd js t1 n1 d hdne) hg
    have hac : pyGet (normalizar_dados_bda pd js t1 n1 d) "acoes_lista" =
        safe_json_loads js (pyGet d "acoes_lista") (PyVal.list []) :=
      pyGet_normalizar_acoes pd js t1 n1 d hdne
    have s7 : normJson js "acoes_lista" (normalizar_dados_bda pd js t1 n1 d) =
        normalizar_dados_bda pd js t1 n1 d := by
      unfold normJson
      rw [hac, safe_json_loads_struct js _ _
        (safe_json_loads_result_struct js (pyGet d "acoes_lista") (PyVal.list []) hjs rfl)]
      exact pySet_id _ _ _ (pyHasKey_normalizar_acoes pd js t1 n1 d hdne) hac
    have hca : pyGet (normalizar_dados_bda pd js t1 n1 d) "causas_linhas" =
        safe_json_loads js (pyGet d "causas_linhas") (PyVal.list []) :=
      pyGet_normalizar_causas pd js t1 n1 d hdne
    have s8 : normJson js "causas_linhas" (normalizar_dados_bda pd js t1 n1 d) =
        normalizar_dados_bda pd js t1 n1 d := by
      unfold normJson
      rw [hca, safe_json_loads_struct js _ _
        (safe_json_loads_result_struct js (pyGet d "causas_linhas") (PyVal.list []) hjs rfl)]
      exact pySet_id _ _ _ (pyHasKey_normalizar_causas pd js t1 n1 d hdne) hca
    have s9 : normTexts (normalizar_dados_bda pd js t1 n1 d) =
        normalizar_dados_bda pd js t1 n1 d :=
      normTexts_id _ (fun k hk => normalizar_text_not_none pd js t1 n1 d hdne k hk)
    have s10 : normExiste (normalizar_dados_bda pd js t1 n1 d) =
        normalizar_dados_bda pd js t1 n1 d := by
      apply normExiste_id
      rw [normalizar_eq_stack pd js t1 n1 d hdne]
      exact normExiste_flag _
    rw [s1, s2, s3, s4, s5, s6, s7, s8, s9, s10]

/-! ## Error-shape lemmas for the validator -/

theorem all_filled_shape (vals : List (String × PyVal)) (labels : List (String × String)) :
    ∀ e ∈ all_filled vals labels,
      ∃ k, k ∈ vals.map Prod.fst ∧ e = "Preencha o campo: " ++ labelOf labels k := by
  induction vals with
  | nil => simp [all_filled]
  | cons kv rest ih =>
    obtain ⟨k, v⟩ := kv
    intro e he
    by_cases hb : isBlankVal v = true
    · rw [all_filled, if_pos hb] at he
      rcases List.mem_cons.mp he with he | he
      · exact ⟨k, by simp, he⟩
      · obtain ⟨k', hk', he'⟩ := ih e he
        exact ⟨k', by simp [hk'], he'⟩
    · rw [all_filled, if_neg hb] at he
      obtain ⟨k', hk', he'⟩ := ih e he
      exact ⟨k', by simp [hk'], he'⟩

theorem whysRowsAux_count (rows : List PyVal) (i n : Nat) (causas : List PyVal) :
    (whysRowsAux rows i causas n).2.2 =
      n + rows.countP (fun r => decide (4 ≤ filledCount r)) := by
  induction rows generalizing i n causas with
  | nil => simp [whysRowsAux]
  | cons row rest ih =>
    simp only [whysRowsAux]
    rw [ih]
    by_cases hf : 4 ≤ filledCount row
    · simp [hf, List.countP_cons]
      omega
    · simp [hf, List.countP_cons]

theorem whysRowsAux_errs_shape (rows : List PyVal) (i n : Nat) (causas : List PyVal) :
    ∀ e ∈ (whysRowsAux rows i causas n).1, ∃ (j : Nat) (s : String), e = ("Linha " ++ toString j) ++ s := by
  induction rows generalizing i n causas with
  | nil => simp [whysRowsAux]
  | cons row rest ih =>
    intro e he
    simp only [whysRowsAux, List.mem_append] at he
    rcases he with (he | he) | he
    · by_cases hs : seqOkRow row = true
      · rw [if_pos hs] at he
        simp at he
      · rw [if_neg hs] at he
        rcases List.mem_singleton.mp he with rfl
        exact ⟨i, ": preencha os porquês em sequência (não pule etapas).", rfl⟩
    · by_cases hc : (0 < filledCount row ∧
          (!pyTruthy (dictGet (pyOr (causas.getD (i - 1) (PyVal.dict [])) (PyVal.dict []))
            "causa")) = true)
      · rw [apply_ite Prod.fst, if_pos hc] at he
        rcases List.mem_singleton.mp he with rfl
        exact ⟨i, ": preencha a Causa vinculada ao último Por quê preenchido.", rfl⟩
      · rw [apply_ite Prod.fst, if_neg hc] at he
        simp at he
    · exact ih _ _ _ e he

theorem linha_ne_min4 (j : Nat) (s : String) : ("Linha " ++ toString j) ++ s ≠ ERRO_MIN4 := by
  intro h
  have hd := congrArg String.data h
  rw [String.data_append, String.data_append] at hd
  have h1 : ("Linha ".data ++ (toString j).data ++ s.data).head? = Option.some 'L' := rfl
  rw [hd] at h1
  exact absurd h1 (by decide)

theorem obrig_label_ne_min4 :
    ∀ k ∈ OBRIG_KEYS, ¬ (ERRO_MIN4 = "Preencha o campo: " ++ labelOf OBRIG_LABELS k) := by
  decide

theorem plan_label_ne_min4 :
    ∀ k ∈ PLAN_KEYS, ¬ (ERRO_MIN4 = "Preencha o campo: " ++ labelOf PLAN_LABELS k) := by
  decide

theorem erro_min4_notin_obrig (p : List (String × PyVal)) :
    ERRO_MIN4 ∉ all_filled (obrigEventoVals p) OBRIG_LABELS := by
  intro hmem
  obtain ⟨k, hk, he⟩ := all_filled_shape (obrigEventoVals p) OBRIG_LABELS ERRO_MIN4 hmem
  have hkeys : (obrigEventoVals p).map Prod.fst = OBRIG_KEYS := rfl
  rw [hkeys] at hk
  exact obrig_label_ne_min4 k hk he

theorem erro_min4_notin_plan (p : List (String × PyVal)) :
    ERRO_MIN4 ∉ all_filled (planVals p) PLAN_LABELS := by
  intro hmem
  obtain ⟨k, hk, he⟩ := all_filled_shape (planVals p) PLAN_LABELS ERRO_MIN4 hmem
  have hkeys : (planVals p).map Prod.fst = PLAN_KEYS := rfl
  rw [hkeys] at hk
  exact plan_label_ne_min4 k hk he

/-- The global 4-whys error is in the output exactly when no row has at
least 4 filled positions. -/
theorem erro_min4_mem_iff (today : Nat) (p : List (String × PyVal))
    (whys causas acoes : List PyVal) :
    ERRO_MIN4 ∈ (validar_payload today p whys causas acoes).1 ↔
      whys.countP (fun r => decide (4 ≤ filledCount r)) = 0 := by
  have hcnt : (whysRowsAux whys 1 causas 0).2.2 =
      whys.countP (fun r => decide (4 ≤ filledCount r)) := by
    rw [whysRowsAux_count]
    simp
  constructor
  · intro hmem
    simp only [validar_payload, List.mem_append] at hmem
    rcases hmem with (((h | h) | h) | h) | h
    · exact absurd h (erro_min4_notin_obrig p)
    · by_cases he : pyEqStr (pyGet p "existe_plano") "Sim" = true
      · rw [if_pos he] at h
        exact absurd h (erro_min4_notin_plan p)
      · rw [if_neg he] at h
        simp at h
    · obtain ⟨j, s, hs⟩ := whysRowsAux_errs_shape whys 1 0 causas ERRO_MIN4 h
      exact absurd hs.symm (linha_ne_min4 j s)
    · by_cases hlt : (whysRowsAux whys 1 causas 0).2.2 < 1
      · rw [← hcnt]
        omega
      · rw [if_neg hlt] at h
        simp at h
    · by_cases hq : ((if pyEqStr (pyGet p "existe_plano") "Não" = true then
          if jaTemAuto acoes = true then acoes else acoes ++ [autoAcao today]
        else acoes).filter acaoConta).length < 1
      · rw [if_pos hq] at h
        exact absurd (List.mem_singleton.mp h) (by decide)
      · rw [if_neg hq] at h
        simp at h
  · intro h0
    simp only [validar_payload, List.mem_append]
    have hlt : (whysRowsAux whys 1 causas 0).2.2 < 1 := by
      rw [hcnt, h0]
      omega
    have hmem4 : ERRO_MIN4 ∈
        (if (whysRowsAux whys 1 causas 0).2.2 < 1 then [ERRO_MIN4] else []) := by
      rw [if_pos hlt]
      exact List.mem_singleton.mpr rfl
    exact Or.inl (Or.inr hmem4)

/-- The post-validation action list, isolated. -/
theorem validar_acoes_proj (today : Nat) (p : List (String × PyVal))
    (whys causas acoes : List PyVal) :
    (validar_payload today p whys causas acoes).2.2 =
      if pyEqStr (pyGet p "existe_plano") "Não" = true then
        (if jaTemAuto acoes = true then acoes else acoes ++ [autoAcao today])
      else acoes := rfl

theorem jaTemAuto_nil : jaTemAuto [] = false := rfl

theorem getDescricao_auto (t : Nat) : getDescricao (autoAcao t) = AUTO_DESC := rfl

theorem jaTemAuto_auto (t : Nat) : jaTemAuto [autoAcao t] = true := by
  unfold jaTemAuto
  rw [List.any_cons]
  rw [getDescricao_auto]
  rw [isSubChars_self]
  rfl

/-! ## Update-row machinery -/

theorem pyGet_foldl_pySet (pairs : List (String × PyVal)) (r : List (String × PyVal))
    (q : String) :
    pyGet (pairs.foldl (fun acc kv => pySet acc kv.1 kv.2) r) q =
      match lookupLastV pairs q with
      | Option.some w => w
      | Option.none => pyGet r q := by
  induction pairs generalizing r with
  | nil => simp [lookupLastV]
  | cons kv rest ih =>
    obtain ⟨k, v⟩ := kv
    rw [List.foldl_cons, ih]
    cases hl : lookupLastV rest q with
    | some w => simp [lookupLastV, hl]
    | none =>
      simp only [lookupLastV, hl]
      rw [pyGet_pySet]
      by_cases hk : k = q
      · simp [hk]
      · simp [hk]

/-- With the five fallible conversions succeeding, the built DB payload is
this literal row. -/
theorem montar_db_payload_eq (jd : PyVal → Option String) (ts : String)
    (p : List (String × PyVal)) (img : PyVal) (tag : String) (b : Bool)
    (tf pi : PyVal) (s1 s2 s3 : String)
    (h1 : pyFloatConv (pyOr (pyGet p "tempo_reparo_h") (PyVal.float 0)) = Option.some tf)
    (h2 : pyIntConv (pyOr (pyGet p "periodicidade_dias") (PyVal.int 0)) = Option.some pi)
    (h3 : jd (pyOr (pyOr (pyGet p "_whys_grid") (pyGet p "cinco_porques_grid"))
      (PyVal.list [])) = Option.some s1)
    (h4 : jd (pyOr (pyOr (pyGet p "_acoes_lista") (pyGet p "acoes_lista"))
      (PyVal.list [])) = Option.some s2)
    (h5 : jd (pyOr (pyOr (pyGet p "_causas_linhas") (pyGet p "causas_linhas"))
      (PyVal.list [])) = Option.some s3) :
    montar_db_payload jd ts p img tag b = Option.some
      [("equipamento", pyGet p "equipamento"),
       ("secao", pyGet p "secao"),
       ("data_quebra", strOrNone (pyGet p "data_quebra")),
       ("hora_quebra", strOrNone (pyGet p "hora_quebra")),
       ("tempo_reparo_h", tf),
       ("numero_ordem", pyGet p "numero_ordem"),
       ("numero_bda", pyGet p "numero_bda"),
       ("turno", pyGet p "turno"),
       ("centro_custo", PyVal.none),
       ("aconteceu_onde", pyGet p "aconteceu_onde"),
       ("aconteceu_antes", pyGet p "aconteceu_antes"),
       ("descricao_reparo", pyGet p "descricao_reparo"),
       ("modo_falha", pyGet p "modo_falha"),
       ("acoes_corretivas", PyVal.none),
       ("responsavel_corretiva", PyVal.none),
       ("quando_corretiva", PyVal.none),
       ("plano_sap", pyGet p "plano_sap"),
       ("descricao_plano", pyGet p "descricao_plano"),
       ("responsavel_plano", PyVal.none),
       ("periodicidade_dias", pi),
       ("ultima_realizacao", strOrNone (pyGet p "ultima_realizacao")),
       ("caminho_imagem", img),
       ("criticidade", PyVal.none),
       ("categoria", PyVal.none),
       ("classificacao", PyVal.none),
       ("causa_raiz", PyVal.none),
       ("cinco_porques", PyVal.none),
       ("componentes", pyGet p "componentes"),
       ("custo_pecas", PyVal.none),
       ("custo_mo", PyVal.none),
       ("time_bda", pyGet p "time_bda"),
       ("dono_bda", pyGet p "dono_bda"),
       ("categoria_evento", pyGet p "categoria_evento"),
       ("cinco_porques_grid", PyVal.str s1),
       ("acoes_lista", PyVal.str s2),
       ("ultimo_executante", pyGet p "ultimo_executante"),
       ("status_plano", pyGet p "status_plano"),
       ("existe_plano", pyGet p "existe_plano"),
       ("principio_funcionamento", pyGet p "principio_funcionamento"),
       ("causas_linhas", PyVal.str s3),
       ("criado_por", if b then PyVal.none else PyVal.str tag),
       ("atualizado_por", if b then PyVal.str tag else PyVal.none),
       ("atualizado_em", if b then PyVal.str ts else PyVal.none)] := by
  simp [montar_db_payload, h1, h2, h3, h4, h5]

/-- Inversion: a successfully built DB payload has this literal shape. -/
theorem montar_db_payload_inv (jd : PyVal → Option String) (ts : String)
    (p : List (String × PyVal)) (img : PyVal) (tag : String) (b : Bool)
    (row : List (String × PyVal))
    (h : montar_db_payload jd ts p img tag b = Option.some row) :
    ∃ tf pi s1 s2 s3,
      pyFloatConv (pyOr (pyGet p "tempo_reparo_h") (PyVal.float 0)) = Option.some tf ∧
      pyIntConv (pyOr (pyGet p "periodicidade_dias") (PyVal.int 0)) = Option.some pi ∧
      jd (pyOr (pyOr (pyGet p "_whys_grid") (pyGet p "cinco_porques_grid"))
        (PyVal.list [])) = Option.some s1 ∧
      jd (pyOr (pyOr (pyGet p "_acoes_lista") (pyGet p "acoes_lista"))
        (PyVal.list [])) = Option.some s2 ∧
      jd (pyOr (pyOr (pyGet p "_causas_linhas") (pyGet p "causas_linhas"))
        (PyVal.list [])) = Option.some s3 := by
  simp only [montar_db_payload] at h
  cases h1 : pyFloatConv (pyOr (pyGet p "tempo_reparo_h") (PyVal.float 0)) with
  | none => rw [h1] at h; simp at h
  | some tf =>
  rw [h1] at h
  cases h2 : pyIntConv (pyOr (pyGet p "periodicidade_dias") (PyVal.int 0)) with
  | none => rw [h2] at h; simp at h
  | some pi =>
  rw [h2] at h
  cases h3 : jd (pyOr (pyOr (pyGet p "_whys_grid") (pyGet p "cinco_porques_grid"))
      (PyVal.list [])) with
  | none => rw [h3] at h; simp at h
  | some s1 =>
  rw [h3] at h
  cases h4 : jd (pyOr (pyOr (pyGet p "_acoes_lista") (pyGet p "acoes_lista"))
      (PyVal.list [])) with
  | none => rw [h4] at h; simp at h
  | some s2 =>
  rw [h4] at h
  cases h5 : jd (pyOr (pyOr (pyGet p "_causas_linhas") (pyGet p "causas_linhas"))
      (PyVal.list [])) with
  | none => rw [h5] at h; simp at h
  | some s3 =>
  exact ⟨tf, pi, s1, s2, s3, rfl, rfl, rfl, rfl, rfl⟩

/-! ## Claim theorems -/

/-- C9: every update call whose payload build succeeds overwrites the twelve
legacy-only columns (centro_custo, acoes_corretivas, responsavel_corretiva,
quando_corretiva, responsavel_plano, criticidade, categoria, classificacao,
causa_raiz, cinco_porques, custo_pecas, custo_mo) of the stored row with
null, regardless of what the row previously contained. -/
theorem claim_C9_update_nulls_legacy (jd : PyVal → Option String) (salvar : PyVal → PyVal)
    (ts : String) (prior p : List (String × PyVal)) (tag : String) (atual : PyVal)
    (tf pi : PyVal) (s1 s2 s3 : String)
    (h1 : pyFloatConv (pyOr (pyGet p "tempo_reparo_h") (PyVal.float 0)) = Option.some tf)
    (h2 : pyIntConv (pyOr (pyGet p "periodicidade_dias") (PyVal.int 0)) = Option.some pi)
    (h3 : jd (pyOr (pyOr (pyGet p "_whys_grid") (pyGet p "cinco_porques_grid"))
      (PyVal.list [])) = Option.some s1)
    (h4 : jd (pyOr (pyOr (pyGet p "_acoes_lista") (pyGet p "acoes_lista"))
      (PyVal.list [])) = Option.some s2)
    (h5 : jd (pyOr (pyOr (pyGet p "_causas_linhas") (pyGet p "causas_linhas"))
      (PyVal.list [])) = Option.some s3) :
    pyGet (atualizar_bda jd salvar ts prior p tag atual) "centro_custo" = PyVal.none ∧
    pyGet (atualizar_bda jd salvar ts prior p tag atual) "acoes_corretivas" = PyVal.none ∧
    pyGet (atualizar_bda jd salvar ts prior p tag atual) "responsavel_corretiva" = PyVal.none ∧
    pyGet (atualizar_bda jd salvar ts prior p tag atual) "quando_corretiva" = PyVal.none ∧
    pyGet (atualizar_bda jd salvar ts prior p tag atual) "responsavel_plano" = PyVal.none ∧
    pyGet (atualizar_bda jd salvar ts prior p tag atual) "criticidade" = PyVal.none ∧
    pyGet (atualizar_bda jd salvar ts prior p tag atual) "categoria" = PyVal.none ∧
    pyGet (atualizar_bda jd salvar ts prior p tag atual) "classificacao" = PyVal.none ∧
    pyGet (atualizar_bda jd salvar ts prior p tag atual) "causa_raiz" = PyVal.none ∧
    pyGet (atualizar_bda jd salvar ts prior p tag atual) "cinco_porques" = PyVal.none ∧
    pyGet (atualizar_bda jd salvar ts prior p tag atual) "custo_pecas" = PyVal.none ∧
    pyGet (atualizar_bda jd salvar ts prior p tag atual) "custo_mo" = PyVal.none := by
  have hrow := montar_db_payload_eq jd ts p
    (if pyIsNone (pyGet p "_imagem_upload") = true then atual
     else salvar (pyGet p "_imagem_upload")) tag true tf pi s1 s2 s3 h1 h2 h3 h4 h5
  simp only [atualizar_bda]
  rw [hrow]
  refine ⟨?_, ?_, ?_, ?_, ?_, ?_, ?_, ?_, ?_, ?_, ?_, ?_⟩ <;>
    (rw [pyGet_foldl_pySet]; rfl)

/-- Witness for C9 at a concrete update. -/
theorem claim_C9_update_nulls_legacy_witness :
    pyGet (atualizar_bda (fun _ => Option.some "[]") (fun _ => PyVal.none)
      "2025-06-01 10:00:00" [("id", PyVal.int 1), ("centro_custo", PyVal.str "CC-7")]
      [("tempo_reparo_h", PyVal.float 2)] "bob@jde.com (CONFIABILIDADE)" PyVal.none)
      "centro_custo" = PyVal.none :=
  (claim_C9_update_nulls_legacy (fun _ => Option.some "[]") (fun _ => PyVal.none)
    "2025-06-01 10:00:00" [("id", PyVal.int 1), ("centro_custo", PyVal.str "CC-7")]
    [("tempo_reparo_h", PyVal.float 2)] "bob@jde.com (CONFIABILIDADE)" PyVal.none
    (PyVal.float 2) (PyVal.int 0) "[]" "[]" "[]" rfl rfl rfl rfl rfl).1

/-- C1: the claim that update never changes the stored creator is violated
by the code: `_montar_db_payload` puts `criado_por = None` into the update
payload and `atualizar_bda` includes that column in its `SET` clause, so an
update overwrites the stored creator with null.  The other half of the
claim does hold: the updater tag and update timestamp are set.  Evaluated
here at the failing input (a stored row whose creator is `alice`, updated
by `bob`). -/
theorem claim_C1_update_creator_nulled :
    pyGet [("id", PyVal.int 1), ("criado_por", PyVal.str "alice@jde.com (TECNICO)"),
        ("equipamento", PyVal.str "Bomba P-101")] "criado_por" =
      PyVal.str "alice@jde.com (TECNICO)" ∧
    pyGet (atualizar_bda (fun _ => Option.some "[]") (fun _ => PyVal.none)
        "2025-06-01 10:00:00"
        [("id", PyVal.int 1), ("criado_por", PyVal.str "alice@jde.com (TECNICO)"),
         ("equipamento", PyVal.str "Bomba P-101")]
        [("equipamento", PyVal.str "Bomba P-101")]
        "bob@jde.com (CONFIABILIDADE)" PyVal.none) "criado_por" = PyVal.none ∧
    pyGet (atualizar_bda (fun _ => Option.some "[]") (fun _ => PyVal.none)
        "2025-06-01 10:00:00"
        [("id", PyVal.int 1), ("criado_por", PyVal.str "alice@jde.com (TECNICO)"),
         ("equipamento", PyVal.str "Bomba P-101")]
        [("equipamento", PyVal.str "Bomba P-101")]
        "bob@jde.com (CONFIABILIDADE)" PyVal.none) "atualizado_por" =
      PyVal.str "bob@jde.com (CONFIABILIDADE)" ∧
    pyGet (atualizar_bda (fun _ => Option.some "[]") (fun _ => PyVal.none)
        "2025-06-01 10:00:00"
        [("id", PyVal.int 1), ("criado_por", PyVal.str "alice@jde.com (TECNICO)"),
         ("equipamento", PyVal.str "Bomba P-101")]
        [("equipamento", PyVal.str "Bomba P-101")]
        "bob@jde.com (CONFIABILIDADE)" PyVal.none) "atualizado_em" =
      PyVal.str "2025-06-01 10:00:00" :=
  ⟨rfl, rfl, rfl, rfl⟩

/-- C5 counterexample: with plan-existence "Não", the persisted row keeps
the supplied plan-field values verbatim — they are not cleared to
empty/default by the core, contradicting the claim that "the values
persisted for those fields are empty/default". -/
theorem claim_C5_counterexample :
    ∃ row, montar_db_payload (fun _ => Option.some "[]") "2025-06-01 10:00:00"
        [("existe_plano", PyVal.str "Não"), ("plano_sap", PyVal.str "PLANO-9999"),
         ("descricao_plano", PyVal.str "Plano mensal antigo")]
        PyVal.none "tag" false = Option.some row ∧
      pyGet row "plano_sap" = PyVal.str "PLANO-9999" ∧
      pyGet row "descricao_plano" = PyVal.str "Plano mensal antigo" := by
  refine ⟨_, rfl, rfl, rfl⟩

/-- C5 (amended): for a record with plan-existence not "Sim" (in particular
"Não"), the validator ignores the six plan fields entirely — replacing them
by arbitrary values does not change the validation result, so no plan-field
error is ever emitted — but the persistence layer copies the supplied plan
fields into the row verbatim rather than clearing them (the clearing
observed in the running system is done by the out-of-core form layer). -/
theorem claim_C5_plan_fields_ignored (today : Nat) (p : List (String × PyVal))
    (whys causas acoes : List PyVal) (v1 v2 v3 v4 v5 v6 : PyVal)
    (jd : PyVal → Option String) (ts : String) (img : PyVal) (tag : String) (b : Bool)
    (row : List (String × PyVal))
    (hns : pyEqStr (pyGet p "existe_plano") "Sim" = false)
    (hrow : montar_db_payload jd ts p img tag b = Option.some row) :
    validar_payload today
        (pySet (pySet (pySet (pySet (pySet (pySet p "plano_sap" v1) "descricao_plano" v2)
          "ultimo_executante" v3) "periodicidade_dias" v4) "ultima_realizacao" v5)
          "status_plano" v6)
        whys causas acoes = validar_payload today p whys causas acoes ∧
    pyGet row "plano_sap" = pyGet p "plano_sap" ∧
    pyGet row "descricao_plano" = pyGet p "descricao_plano" ∧
    pyGet row "ultimo_executante" = pyGet p "ultimo_executante" ∧
    pyGet row "status_plano" = pyGet p "status_plano" := by
  obtain ⟨tf, pi, s1, s2, s3, h1, h2, h3, h4, h5⟩ :=
    montar_db_payload_inv jd ts p img tag b row hrow
  have hrow2 := montar_db_payload_eq jd ts p img tag b tf pi s1 s2 s3 h1 h2 h3 h4 h5
  rw [hrow] at hrow2
  have hrowv := Option.some.inj hrow2
  constructor
  · have hex : pyGet (pySet (pySet (pySet (pySet (pySet (pySet p "plano_sap" v1)
        "descricao_plano" v2) "ultimo_executante" v3) "periodicidade_dias" v4)
        "ultima_realizacao" v5) "status_plano" v6) "existe_plano" = pyGet p "existe_plano" := by
      simp [pyGet_pySet]
    have hobrig : obrigEventoVals (pySet (pySet (pySet (pySet (pySet (pySet p "plano_sap" v1)
        "descricao_plano" v2) "ultimo_executante" v3) "periodicidade_dias" v4)
        "ultima_realizacao" v5) "status_plano" v6) = obrigEventoVals p := by
      simp [obrigEventoVals, pyGet_pySet]
    simp only [validar_payload, hobrig, hex, hns]
    simp
  · subst hrowv
    exact ⟨rfl, rfl, rfl, rfl⟩

/-- Witness for C5 at a concrete "Não" payload. -/
theorem claim_C5_plan_fields_ignored_witness :
    validar_payload 100
        (pySet (pySet (pySet (pySet (pySet (pySet
          [("existe_plano", PyVal.str "Não"), ("plano_sap", PyVal.str "P-1")]
          "plano_sap" (PyVal.str "OUTRO")) "descricao_plano" (PyVal.str "x"))
          "ultimo_executante" (PyVal.str "y")) "periodicidade_dias" (PyVal.int 9))
          "ultima_realizacao" (PyVal.date 5)) "status_plano" (PyVal.str "No prazo"))
        [] [] [] =
      validar_payload 100 [("existe_plano", PyVal.str "Não"), ("plano_sap", PyVal.str "P-1")]
        [] [] [] ∧
    pyGet [("equipamento", PyVal.none), ("secao", PyVal.none),
        ("data_quebra", PyVal.none), ("hora_quebra", PyVal.none),
        ("tempo_reparo_h", PyVal.float 0), ("numero_ordem", PyVal.none),
        ("numero_bda", PyVal.none), ("turno", PyVal.none), ("centro_custo", PyVal.none),
        ("aconteceu_onde", PyVal.none), ("aconteceu_antes", PyVal.none),
        ("descricao_reparo", PyVal.none), ("modo_falha", PyVal.none),
        ("acoes_corretivas", PyVal.none), ("responsavel_corretiva", PyVal.none),
        ("quando_corretiva", PyVal.none), ("plano_sap", PyVal.str "P-1"),
        ("descricao_plano", PyVal.none), ("responsavel_plano", PyVal.none),
        ("periodicidade_dias", PyVal.int 0), ("ultima_realizacao", PyVal.none),
        ("caminho_imagem", PyVal.none), ("criticidade", PyVal.none),
        ("categoria", PyVal.none), ("classificacao", PyVal.none),
        ("causa_raiz", PyVal.none), ("cinco_porques", PyVal.none),
        ("componentes", PyVal.none), ("custo_pecas", PyVal.none), ("custo_mo", PyVal.none),
        ("time_bda", PyVal.none), ("dono_bda", PyVal.none), ("categoria_evento", PyVal.none),
        ("cinco_porques_grid", PyVal.str "[]"), ("acoes_lista", PyVal.str "[]"),
        ("ultimo_executante", PyVal.none), ("status_plano", PyVal.none),
        ("existe_plano", PyVal.str "Não"), ("principio_funcionamento", PyVal.none),
        ("causas_linhas", PyVal.str "[]"), ("criado_por", PyVal.str "tag"),
        ("atualizado_por", PyVal.none), ("atualizado_em", PyVal.none)] "plano_sap" =
      pyGet [("existe_plano", PyVal.str "Não"), ("plano_sap", PyVal.str "P-1")] "plano_sap" :=
  ⟨(claim_C5_plan_fields_ignored 100
      [("existe_plano", PyVal.str "Não"), ("plano_sap", PyVal.str "P-1")] [] [] []
      (PyVal.str "OUTRO") (PyVal.str "x") (PyVal.str "y") (PyVal.int 9) (PyVal.date 5)
      (PyVal.str "No prazo") (fun _ => Option.some "[]") "ts" PyVal.none "tag" false _
      rfl rfl).1,
   (claim_C5_plan_fields_ignored 100
      [("existe_plano", PyVal.str "Não"), ("plano_sap", PyVal.str "P-1")] [] [] []
      (PyVal.str "OUTRO") (PyVal.str "x") (PyVal.str "y") (PyVal.int 9) (PyVal.date 5)
      (PyVal.str "No prazo") (fun _ => Option.some "[]") "ts" PyVal.none "tag" false _
      rfl rfl).2.1⟩

/-- C3: with plan-existence "Não" and an empty action list, validation
appends exactly one synthetic action — category "Implementação de padrão",
responsible "Definir", due date the validation date plus 30 days — and a
second validation run on the already-injected list appends nothing (the
case-insensitive substring guard on the canned description recognizes it),
even if the second run happens on a different day. -/
theorem claim_C3_auto_injection (today today2 : Nat) (p : List (String × PyVal))
    (whys causas : List PyVal)
    (hnao : pyGet p "existe_plano" = PyVal.str "Não")
    (hw : ∀ r ∈ whys, (∃ kvs, r = PyVal.dict kvs) ∨ pyTruthy r = false)
    (hc : ∀ c ∈ causas, ∃ kvs, c = PyVal.dict kvs) :
    (validar_payload today p whys causas []).2.2 = [autoAcao today] ∧
    (validar_payload today2 p whys causas [autoAcao today]).2.2 = [autoAcao today] ∧
    dictGet (autoAcao today) "categoria" = PyVal.str "Implementação de padrão" ∧
    dictGet (autoAcao today) "responsavel" = PyVal.str "Definir" ∧
    dictGet (autoAcao today) "prazo" = PyVal.str (dateToStr (today + 30)) := by
  refine ⟨?_, ?_, rfl, rfl, rfl⟩
  · rw [validar_acoes_proj, hnao]
    simp [pyEqStr, jaTemAuto_nil]
  · rw [validar_acoes_proj, hnao]
    simp [pyEqStr, jaTemAuto_auto]

/-- Witness for C3 at a concrete "Não" payload. -/
theorem claim_C3_auto_injection_witness :
    (validar_payload 200 [("existe_plano", PyVal.str "Não")] [] [] []).2.2 =
      [autoAcao 200] ∧
    (validar_payload 231 [("existe_plano", PyVal.str "Não")] [] [] [autoAcao 200]).2.2 =
      [autoAcao 200] :=
  ⟨(claim_C3_auto_injection 200 231 [("existe_plano", PyVal.str "Não")] [] [] rfl
      (by simp) (by simp)).1,
   (claim_C3_auto_injection 200 231 [("existe_plano", PyVal.str "Não")] [] [] rfl
      (by simp) (by simp)).2.1⟩

/-- C8: the global error "Preencha pelo menos uma linha com no mínimo 4 Por
quês." is returned exactly when no Why-Chain row has at least 4 truthy
positions — so 5 rows of exactly 3 filled positions always trigger it, and
any row with 4 or more filled positions (contiguous or not) suppresses it.
The well-formedness hypotheses restrict to inputs on which the Python
original does not raise (rows are dicts or falsy; causes are dicts; actions
are dicts whose description, when present, is a string). -/
theorem claim_C8_min4_global_error (today : Nat) (p : List (String × PyVal))
    (whys causas acoes : List PyVal)
    (hw : ∀ r ∈ whys, (∃ kvs, r = PyVal.dict kvs) ∨ pyTruthy r = false)
    (hc : ∀ c ∈ causas, ∃ kvs, c = PyVal.dict kvs)
    (ha : ∀ a ∈ acoes, ∃ kvs, a = PyVal.dict kvs ∧
      (pyHasKey kvs "descricao" = true → ∃ s, pyGet kvs "descricao" = PyVal.str s)) :
    ERRO_MIN4 ∈ (validar_payload today p whys causas acoes).1 ↔
      whys.countP (fun r => decide (4 ≤ filledCount r)) = 0 :=
  erro_min4_mem_iff today p whys causas acoes

/-- Witness for C8: five rows with exactly 3 filled positions each trigger
the global error. -/
theorem claim_C8_min4_global_error_witness :
    ERRO_MIN4 ∈ (validar_payload 300 []
      [PyVal.dict [("pq1", PyVal.str "a"), ("pq2", PyVal.str "b"), ("pq3", PyVal.str "c")],
       PyVal.dict [("pq1", PyVal.str "d"), ("pq2", PyVal.str "e"), ("pq3", PyVal.str "f")],
       PyVal.dict [("pq1", PyVal.str "g"), ("pq2", PyVal.str "h"), ("pq3", PyVal.str "i")],
       PyVal.dict [("pq1", PyVal.str "j"), ("pq2", PyVal.str "k"), ("pq3", PyVal.str "l")],
       PyVal.dict [("pq1", PyVal.str "m"), ("pq2", PyVal.str "n"), ("pq3", PyVal.str "o")]]
      [] []).1 :=
  (claim_C8_min4_global_error 300 []
    [PyVal.dict [("pq1", PyVal.str "a"), ("pq2", PyVal.str "b"), ("pq3", PyVal.str "c")],
     PyVal.dict [("pq1", PyVal.str "d"), ("pq2", PyVal.str "e"), ("pq3", PyVal.str "f")],
     PyVal.dict [("pq1", PyVal.str "g"), ("pq2", PyVal.str "h"), ("pq3", PyVal.str "i")],
     PyVal.dict [("pq1", PyVal.str "j"), ("pq2", PyVal.str "k"), ("pq3", PyVal.str "l")],
     PyVal.dict [("pq1", PyVal.str "m"), ("pq2", PyVal.str "n"), ("pq3", PyVal.str "o")]]
    [] []
    (by intro r hr
        simp only [List.mem_cons, List.not_mem_nil, or_false] at hr
        rcases hr with rfl | rfl | rfl | rfl | rfl <;> exact Or.inl ⟨_, rfl⟩)
    (by simp) (by simp)).mpr (by decide)

/-- C2 counterexample: the normalizer returns the empty record unchanged
(`if not dados: return {}`), so for the all-fields-absent record the break
date of the result is null — the claim "break-date … always non-null" fails
on the empty input record. -/
theorem claim_C2_counterexample :
    pyGet (normalizar_dados_bda (fun _ => Option.none) (fun _ => Option.none)
      700 ⟨8, 30, 0, 0⟩ []) "data_quebra" = PyVal.none := rfl

/-- C2 (amended): for every NON-EMPTY raw record — whatever the shapes of
its date, time and numeric fields — normalization returns a typed record
without raising: the break date is a date and never null (falling back to
today), the break time is a time and never null (falling back to now), the
repair duration is a float, the periodicity an int, and the last plan
execution a date or null. -/
theorem claim_C2_normalize_total_typed (pd : String → Option Nat)
    (js : String → Option PyVal) (today : Nat) (now : PyTime)
    (d : List (String × PyVal)) (h : d ≠ []) :
    isDateV (pyGet (normalizar_dados_bda pd js today now d) "data_quebra") = true ∧
    pyIsNone (pyGet (normalizar_dados_bda pd js today now d) "data_quebra") = false ∧
    isTimeV (pyGet (normalizar_dados_bda pd js today now d) "hora_quebra") = true ∧
    pyIsNone (pyGet (normalizar_dados_bda pd js today now d) "hora_quebra") = false ∧
    isFloatV (pyGet (normalizar_dados_bda pd js today now d) "tempo_reparo_h") = true ∧
    isIntV (pyGet (normalizar_dados_bda pd js today now d) "periodicidade_dias") = true ∧
    (isDateV (pyGet (normalizar_dados_bda pd js today now d) "ultima_realizacao") = true ∨
     pyGet (normalizar_dados_bda pd js today now d) "ultima_realizacao" = PyVal.none) := by
  refine ⟨?_, ?_, ?_, ?_, ?_, ?_, ?_⟩
  · rw [pyGet_normalizar_data pd js today now d h]
    cases parse_date pd (pyGet d "data_quebra") <;> rfl
  · rw [pyGet_normalizar_data pd js today now d h]
    cases parse_date pd (pyGet d "data_quebra") <;> rfl
  · rw [pyGet_normalizar_hora pd js today now d h]
    rfl
  · rw [pyGet_normalizar_hora pd js today now d h]
    rfl
  · rw [pyGet_normalizar_tempo pd js today now d h]
    exact isFloatV_getD _
  · rw [pyGet_normalizar_perio pd js today now d h]
    exact isIntV_getD _
  · rw [pyGet_normalizar_ultima pd js today now d h]
    cases parse_date pd (pyGet d "ultima_realizacao")
    · exact Or.inr rfl
    · exact Or.inl rfl

/-- Witness for C2 on a record whose every interesting field is absent or
malformed. -/
theorem claim_C2_normalize_total_typed_witness :
    isDateV (pyGet (normalizar_dados_bda (fun _ => Option.none) (fun _ => Option.none)
      700 ⟨8, 30, 0, 0⟩ [("data_quebra", PyVal.str "31/02/distante"),
        ("hora_quebra", PyVal.str "xx:yy"), ("tempo_reparo_h", PyVal.str "abc")])
      "data_quebra") = true ∧
    pyIsNone (pyGet (normalizar_dados_bda (fun _ => Option.none) (fun _ => Option.none)
      700 ⟨8, 30, 0, 0⟩ [("data_quebra", PyVal.str "31/02/distante"),
        ("hora_quebra", PyVal.str "xx:yy"), ("tempo_reparo_h", PyVal.str "abc")])
      "data_quebra") = false ∧
    isTimeV (pyGet (normalizar_dados_bda (fun _ => Option.none) (fun _ => Option.none)
      700 ⟨8, 30, 0, 0⟩ [("data_quebra", PyVal.str "31/02/distante"),
        ("hora_quebra", PyVal.str "xx:yy"), ("tempo_reparo_h", PyVal.str "abc")])
      "hora_quebra") = true ∧
    pyIsNone (pyGet (normalizar_dados_bda (fun _ => Option.none) (fun _ => Option.none)
      700 ⟨8, 30, 0, 0⟩ [("data_quebra", PyVal.str "31/02/distante"),
        ("hora_quebra", PyVal.str "xx:yy"), ("tempo_reparo_h", PyVal.str "abc")])
      "hora_quebra") = false ∧
    isFloatV (pyGet (normalizar_dados_bda (fun _ => Option.none) (fun _ => Option.none)
      700 ⟨8, 30, 0, 0⟩ [("data_quebra", PyVal.str "31/02/distante"),
        ("hora_quebra", PyVal.str "xx:yy"), ("tempo_reparo_h", PyVal.str "abc")])
      "tempo_reparo_h") = true ∧
    isIntV (pyGet (normalizar_dados_bda (fun _ => Option.none) (fun _ => Option.none)
      700 ⟨8, 30, 0, 0⟩ [("data_quebra", PyVal.str "31/02/distante"),
        ("hora_quebra", PyVal.str "xx:yy"), ("tempo_reparo_h", PyVal.str "abc")])
      "periodicidade_dias") = true ∧
    (isDateV (pyGet (normalizar_dados_bda (fun _ => Option.none) (fun _ => Option.none)
      700 ⟨8, 30, 0, 0⟩ [("data_quebra", PyVal.str "31/02/distante"),
        ("hora_quebra", PyVal.str "xx:yy"), ("tempo_reparo_h", PyVal.str "abc")])
      "ultima_realizacao") = true ∨
     pyGet (normalizar_dados_bda (fun _ => Option.none) (fun _ => Option.none)
      700 ⟨8, 30, 0, 0⟩ [("data_quebra", PyVal.str "31/02/distante"),
        ("hora_quebra", PyVal.str "xx:yy"), ("tempo_reparo_h", PyVal.str "abc")])
      "ultima_realizacao" = PyVal.none) :=
  claim_C2_normalize_total_typed (fun _ => Option.none) (fun _ => Option.none)
    700 ⟨8, 30, 0, 0⟩ _ (List.cons_ne_nil _ _)

/-- C10 counterexample: normalization is NOT idempotent in general.  When a
JSON field holds a JSON-encoded bare string (here `"abc"`, which
`json.loads` parses to the string `abc`), the first pass stores that
string; the second pass feeds it to `json.loads` again, which fails, so the
field collapses to the empty-list default — the two passes differ. -/
theorem claim_C10_counterexample :
    normalizar_dados_bda (fun _ => Option.none)
        (fun s => if s = "\"abc\"" then Option.some (PyVal.str "abc") else Option.none)
        1 ⟨0, 0, 0, 0⟩
        (normalizar_dados_bda (fun _ => Option.none)
          (fun s => if s = "\"abc\"" then Option.some (PyVal.str "abc") else Option.none)
          1 ⟨0, 0, 0, 0⟩ [("cinco_porques_grid", PyVal.str "\"abc\"")]) ≠
      normalizar_dados_bda (fun _ => Option.none)
        (fun s => if s = "\"abc\"" then Option.some (PyVal.str "abc") else Option.none)
        1 ⟨0, 0, 0, 0⟩ [("cinco_porques_grid", PyVal.str "\"abc\"")] := by
  intro h
  have h1 := congrArg (fun r => pyGet r "cinco_porques_grid") h
  have e1 : pyGet (normalizar_dados_bda (fun _ => Option.none)
      (fun s => if s = "\"abc\"" then Option.some (PyVal.str "abc") else Option.none)
      1 ⟨0, 0, 0, 0⟩
      (normalizar_dados_bda (fun _ => Option.none)
        (fun s => if s = "\"abc\"" then Option.some (PyVal.str "abc") else Option.none)
        1 ⟨0, 0, 0, 0⟩ [("cinco_porques_grid", PyVal.str "\"abc\"")]))
      "cinco_porques_grid" = PyVal.list [] := rfl
  have e2 : pyGet (normalizar_dados_bda (fun _ => Option.none)
      (fun s => if s = "\"abc\"" then Option.some (PyVal.str "abc") else Option.none)
      1 ⟨0, 0, 0, 0⟩ [("cinco_porques_grid", PyVal.str "\"abc\"")])
      "cinco_porques_grid" = PyVal.str "abc" := rfl
  simp only at h1
  rw [e1, e2] at h1
  exact PyVal.noConfusion h1

/-- C10 (amended): normalization is idempotent whenever the JSON parser
returns only structured (list/dict) values — in particular on every record
whose JSON-shaped fields are absent, blank, already structured, or parse to
lists; the clock may differ between the passes.  (The unconditional claim
fails only when a JSON field parses to a bare scalar, see the
counterexample.) -/
theorem claim_C10_normalize_idempotent (pd : String → Option Nat)
    (js : String → Option PyVal)
    (hjs : ∀ s v, js s = Option.some v → isStructV v = true)
    (t1 t2 : Nat) (n1 n2 : PyTime) (d : List (String × PyVal)) :
    normalizar_dados_bda pd js t2 n2 (normalizar_dados_bda pd js t1 n1 d) =
      normalizar_dados_bda pd js t1 n1 d :=
  normalizar_idem pd js hjs t1 t2 n1 n2 d

/-- Witness for C10 with a structured JSON parser. -/
theorem claim_C10_normalize_idempotent_witness :
    normalizar_dados_bda (fun _ => Option.none) (fun _ => Option.some (PyVal.list []))
        9 ⟨1, 2, 3, 0⟩
        (normalizar_dados_bda (fun _ => Option.none) (fun _ => Option.some (PyVal.list []))
          5 ⟨4, 5, 6, 0⟩ [("equipamento", PyVal.none), ("tempo_reparo_h", PyVal.str "x")]) =
      normalizar_dados_bda (fun _ => Option.none) (fun _ => Option.some (PyVal.list []))
        5 ⟨4, 5, 6, 0⟩ [("equipamento", PyVal.none), ("tempo_reparo_h", PyVal.str "x")] :=
  claim_C10_normalize_idempotent (fun _ => Option.none) (fun _ => Option.some (PyVal.list []))
    (fun s v hv => by rw [← Option.some.inj hv]; rfl) 5 9 ⟨4, 5, 6, 0⟩ ⟨1, 2, 3, 0⟩
    [("equipamento", PyVal.none), ("tempo_reparo_h", PyVal.str "x")]

/-- Column-migration loop specification: the final column list only grows,
and on a failure at column `c` the attempted columns are exactly the
missing ones up to and including `c` — nothing afterwards is attempted. -/
theorem migrateCols_spec (fails : String → Bool) (cols : List String)
    (existing : List String) (hnd : cols.Nodup) :
    (∃ added, (migrateCols fails cols existing).1 = existing ++ added) ∧
    (∀ c, (migrateCols fails cols existing).2.2 = Option.some c →
      ∃ pre post, cols.filter (fun x => !decide (x ∈ existing)) = pre ++ c :: post ∧
        (migrateCols fails cols existing).2.1 = pre ++ [c]) := by
  induction cols generalizing existing with
  | nil => exact ⟨⟨[], by simp [migrateCols]⟩, by simp [migrateCols]⟩
  | cons c rest ih =>
    have hnd' : rest.Nodup := (List.nodup_cons.mp hnd).2
    have hcn : c ∉ rest := (List.nodup_cons.mp hnd).1
    by_cases hmem : c ∈ existing
    · constructor
      · obtain ⟨added, hadd⟩ := (ih existing hnd').1
        exact ⟨added, by simp only [migrateCols, if_pos hmem]; exact hadd⟩
      · intro c' hc'
        simp only [migrateCols, if_pos hmem] at hc'
        obtain ⟨pre, post, hfil, hatt⟩ := (ih existing hnd').2 c' hc'
        refine ⟨pre, post, ?_, ?_⟩
        · rw [List.filter_cons]
          simp [hmem, hfil]
        · simp only [migrateCols, if_pos hmem]
          exact hatt
    · by_cases hf : fails c = true
      · constructor
        · exact ⟨[], by simp [migrateCols, hmem, hf]⟩
        · intro c' hc'
          simp only [migrateCols, if_neg hmem, if_pos hf] at hc'
          simp only [Option.some.injEq] at hc'
          subst hc'
          refine ⟨[], rest.filter (fun x => !decide (x ∈ existing)), ?_, ?_⟩
          · rw [List.filter_cons]
            simp [hmem]
          · simp [migrateCols, hmem, hf]
      · have hres : migrateCols fails (c :: rest) existing =
            ((migrateCols fails rest (existing ++ [c])).1,
             c :: (migrateCols fails rest (existing ++ [c])).2.1,
             (migrateCols fails rest (existing ++ [c])).2.2) := by
          simp [migrateCols, hmem, hf]
        have hfeq : rest.filter (fun x => !decide (x ∈ existing)) =
            rest.filter (fun x => !decide (x ∈ existing ++ [c])) := by
          apply List.filter_congr
          intro x hx
          have hxc : ¬ x = c := fun hh => hcn (hh ▸ hx)
          simp [List.mem_append, hxc]
        constructor
        · obtain ⟨added, hadd⟩ := (ih (existing ++ [c]) hnd').1
          refine ⟨c :: added, ?_⟩
          rw [hres]
          simp only []
          rw [hadd, List.append_assoc]
          rfl
        · intro c' hc'
          rw [hres] at hc'
          simp only [] at hc'
          obtain ⟨pre, post, hfil, hatt⟩ := (ih (existing ++ [c]) hnd').2 c' hc'
          refine ⟨c :: pre, post, ?_, ?_⟩
          · rw [List.filter_cons]
            have hcb : (!decide (c ∈ existing)) = true := by simp [hmem]
            rw [if_pos hcb, hfeq, hfil]
            rfl
          · rw [hres]
            simp only []
            rw [hatt]
            rfl

/-- C4 counterexample: the `ALTER TABLE` loop has no per-column exception
handling, so when adding the first missing registry column (`time_bda`)
fails on a legacy table, no later registry column is attempted — `dono_bda`
(also missing) is never tried, contradicting "every subsequent column in
the new-columns registry is still attempted". -/
theorem claim_C4_counterexample :
    (ensure_schema_migration ["id", "equipamento"] (fun c => c == "time_bda")).2.2 =
      Option.some "time_bda" ∧
    (ensure_schema_migration ["id", "equipamento"] (fun c => c == "time_bda")).2.1 =
      ["time_bda"] ∧
    "dono_bda" ∉
      (ensure_schema_migration ["id", "equipamento"] (fun c => c == "time_bda")).2.1 ∧
    "dono_bda" ∉ (["id", "equipamento"] : List String) := by
  decide

/-- C4 (amended): a failure while adding one column aborts the whole
remaining migration — the attempted columns are exactly the missing ones up
to and including the failing column, and nothing after it is attempted —
while existing columns (and hence existing data) are never destroyed: the
final column list is the existing list plus appended new columns only. -/
theorem claim_C4_migration_aborts_then_preserves (existing : List String)
    (fails : String → Bool) :
    (∃ added, (ensure_schema_migration existing fails).1 = existing ++ added) ∧
    (∀ c, (ensure_schema_migration existing fails).2.2 = Option.some c →
      ∃ pre post, NEW_COLS.filter (fun x => !decide (x ∈ existing)) = pre ++ c :: post ∧
        (ensure_schema_migration existing fails).2.1 = pre ++ [c]) :=
  migrateCols_spec (fails) NEW_COLS existing (by decide)

/-- Witness for C4 at the legacy-table scenario. -/
theorem claim_C4_migration_aborts_then_preserves_witness :
    ∃ pre post,
      NEW_COLS.filter (fun x => !decide (x ∈ (["id", "equipamento"] : List String))) =
        pre ++ "time_bda" :: post ∧
      (ensure_schema_migration ["id", "equipamento"] (fun c => c == "time_bda")).2.1 =
        pre ++ ["time_bda"] :=
  (claim_C4_migration_aborts_then_preserves ["id", "equipamento"]
    (fun c => c == "time_bda")).2 "time_bda" (by decide)

/-- C6: the claim that a null repair duration yields the error "Preencha o
campo: Tempo de reparo (h)" fails on the code.  `validar_payload` wraps
`tempo_reparo_h` in an unconditional `str()`, so `None` becomes the
non-blank string `"None"` and NO validation error at all is produced for
this payload — the validator accepts a record with a null repair duration,
contradicting the mandatory-field rule the claim (and the form's `*` label)
state. -/
theorem claim_C6_tempo_none_not_flagged :
    pyGet c6_payload "tempo_reparo_h" = PyVal.none ∧
    (validar_payload 738010 c6_payload c6_grid c6_causas c6_acoes).1 = [] := by
  exact ⟨rfl, rfl⟩

/-! ## Rendering and re-parsing facts for the round-trip claim -/

theorem toDigitsCore_all (P : Char → Prop) (hP : ∀ m, m < 10 → P (Nat.digitChar m))
    (fuel : Nat) :
    ∀ (n : Nat) (ds : List Char), (∀ c ∈ ds, P c) →
      ∀ c ∈ Nat.toDigitsCore 10 fuel n ds, P c := by
  induction fuel with
  | zero =>
    intro n ds hds c hc
    simpa [Nat.toDigitsCore] using hds c hc
  | succ f ih =>
    intro n ds hds c hc
    simp only [Nat.toDigitsCore] at hc
    have hdig : P (Nat.digitChar (n % 10)) := hP _ (Nat.mod_lt n (by norm_num))
    by_cases h0 : n / 10 = 0
    · rw [if_pos h0] at hc
      rcases List.mem_cons.mp hc with rfl | hc'
      · exact hdig
      · exact hds c hc'
    · rw [if_neg h0] at hc
      refine ih (n / 10) (Nat.digitChar (n % 10) :: ds) ?_ c hc
      intro c' hc'
      rcases List.mem_cons.mp hc' with rfl | hc''
      · exact hdig
      · exact hds c' hc''

theorem toString_nat_all (P : Char → Prop) (hP : ∀ m, m < 10 → P (Nat.digitChar m))
    (n : Nat) : ∀ c ∈ (toString n).data, P c := by
  have : (toString n).data = Nat.toDigitsCore 10 (n + 1) n [] := rfl
  rw [this]
  exact toDigitsCore_all P hP (n + 1) n [] (by simp)

theorem dropWhile_eq_self_of (p : Char → Bool) (l : List Char)
    (h : ∀ c ∈ l, p c = false) : l.dropWhile p = l := by
  cases l with
  | nil => rfl
  | cons c cs =>
    rw [List.dropWhile_cons, h c (List.mem_cons_self c cs)]
    simp

theorem pyStrip_eq_self (s : String) (h : ∀ c ∈ s.data, c.isWhitespace = false) :
    pyStrip s = s := by
  unfold pyStrip
  rw [dropWhile_eq_self_of _ _ h,
      dropWhile_eq_self_of _ _ (fun c hc => h c (List.mem_reverse.mp hc)),
      List.reverse_reverse]

theorem dateToStr_not_ws (n : Nat) : ∀ c ∈ (dateToStr n).data, c.isWhitespace = false := by
  unfold dateToStr
  rw [String.data_append]
  intro c hc
  rcases List.mem_append.mp hc with hc | hc
  · have hall : ∀ c ∈ "data-".data, c.isWhitespace = false := by decide
    exact hall c hc
  · exact toString_nat_all (fun c => c.isWhitespace = false) (by decide) n c hc

theorem dateToStr_ne_empty (n : Nat) : ¬ dateToStr n = "" := by
  intro h
  have hd := congrArg String.data h
  unfold dateToStr at hd
  rw [String.data_append] at hd
  simp at hd

theorem parse_date_dateToStr (pd : String → Option Nat) (n : Nat)
    (hpd : pd (dateToStr n) = Option.some n) :
    parse_date pd (PyVal.str (dateToStr n)) = Option.some n := by
  simp only [parse_date]
  rw [pyStrip_eq_self _ (dateToStr_not_ws n)]
  rw [if_neg (dateToStr_ne_empty n), hpd]

theorem pad2_not_ws : ∀ x, x < 60 → ∀ c ∈ (pad2 x).data, c.isWhitespace = false := by decide

theorem pad2_no_colon : ∀ x, x < 60 → ∀ c ∈ (pad2 x).data, ¬ c = ':' := by decide

theorem pad2_ne_nil : ∀ x, x < 60 → (pad2 x).data ≠ [] := by decide

theorem pyStrToInt_mk_pad2 :
    ∀ x, x < 60 → pyStrToInt (String.mk (pad2 x).data) = Option.some (x : Int) := by decide

theorem splitOnChar_no (c : Char) (l : List Char) (h : ∀ x ∈ l, ¬ x = c) :
    splitOnChar c l = [l] := by
  induction l with
  | nil => rfl
  | cons x xs ih =>
    have hx : ¬ x = c := h x (List.mem_cons_self x xs)
    have hxs := ih (fun y hy => h y (List.mem_cons_of_mem x hy))
    simp only [splitOnChar, if_neg hx, hxs]

theorem splitOnChar_append (c : Char) (l1 l2 : List Char) (h : ∀ x ∈ l1, ¬ x = c) :
    splitOnChar c (l1 ++ c :: l2) = l1 :: splitOnChar c l2 := by
  induction l1 with
  | nil => simp [splitOnChar]
  | cons x xs ih =>
    have hx : ¬ x = c := h x (List.mem_cons_self x xs)
    have hxs := ih (fun y hy => h y (List.mem_cons_of_mem x hy))
    simp only [List.cons_append, splitOnChar, if_neg hx, List.append_eq, hxs]

theorem timeToStr_zero_micro (t : PyTime) (hu : t.micro = 0) :
    timeToStr t = pad2 t.hour ++ ":" ++ pad2 t.minute ++ ":" ++ pad2 t.second := by
  unfold timeToStr
  rw [if_pos hu]
  apply String.ext
  simp [String.data_append]

theorem timeToStr_data (t : PyTime) (hu : t.micro = 0) :
    (timeToStr t).data =
      (pad2 t.hour).data ++ ':' :: ((pad2 t.minute).data ++ ':' :: (pad2 t.second).data) := by
  rw [timeToStr_zero_micro t hu]
  simp [String.data_append]

theorem parse_time_roundtrip (n2 : PyTime) (t : PyTime) (hh : t.hour < 24)
    (hm : t.minute < 60) (hs : t.second < 60) (hu : t.micro = 0) :
    parse_time n2 (PyVal.str (timeToStr t)) = t := by
  have h60 : t.hour < 60 := by omega
  have hnws : ∀ c ∈ (timeToStr t).data, c.isWhitespace = false := by
    rw [timeToStr_data t hu]
    intro c hc
    rcases List.mem_append.mp hc with hc | hc
    · exact pad2_not_ws t.hour h60 c hc
    · rcases List.mem_cons.mp hc with rfl | hc
      · decide
      · rcases List.mem_append.mp hc with hc | hc
        · exact pad2_not_ws t.minute hm c hc
        · rcases List.mem_cons.mp hc with rfl | hc
          · decide
          · exact pad2_not_ws t.second hs c hc
  have hstrip : pyStrip (timeToStr t) = timeToStr t := pyStrip_eq_self _ hnws
  have hne : ¬ timeToStr t = "" := by
    intro hemp
    have hd := congrArg String.data hemp
    rw [timeToStr_data t hu] at hd
    simp at hd
  have hsplit : splitOnChar ':' (timeToStr t).data =
      [(pad2 t.hour).data, (pad2 t.minute).data, (pad2 t.second).data] := by
    rw [timeToStr_data t hu,
        splitOnChar_append ':' _ _ (pad2_no_colon t.hour h60),
        splitOnChar_append ':' _ _ (pad2_no_colon t.minute hm),
        splitOnChar_no ':' _ (pad2_no_colon t.second hs)]
  simp only [parse_time]
  rw [hstrip, if_neg hne, hsplit]
  simp only [pyStrToInt_mk_pad2 t.hour h60, pyStrToInt_mk_pad2 t.minute hm,
    pyStrToInt_mk_pad2 t.second hs]
  have hcond : (0 : Int) ≤ (t.hour : Int) ∧ (t.hour : Int) ≤ 23 ∧
      (0 : Int) ≤ (t.minute : Int) ∧ (t.minute : Int) ≤ 59 ∧
      (0 : Int) ≤ (t.second : Int) ∧ (t.second : Int) ≤ 59 := by
    refine ⟨?_, ?_, ?_, ?_, ?_, ?_⟩ <;> omega
  rw [if_pos hcond]
  obtain ⟨a, b, c, d⟩ := t
  simp only [] at hu
  simp [Int.toNat_ofNat, hu]

theorem pyOr_none (b : PyVal) : pyOr PyVal.none b = b := rfl

theorem pyOr_list_nil (xs : List PyVal) :
    pyOr (PyVal.list xs) (PyVal.list []) = PyVal.list xs := by
  cases xs with
  | nil => rfl
  | cons x r => rfl

theorem pyGet_cons_ne (k' : String) (v : PyVal) (l : List (String × PyVal)) (k : String)
    (h : ¬ k' = k) : pyGet ((k', v) :: l) k = pyGet l k := by
  simp [pyGet, h]

theorem pyGet_append_left (l1 l2 : List (String × PyVal)) (k : String)
    (h : pyHasKey l1 k = true) : pyGet (l1 ++ l2) k = pyGet l1 k := by
  induction l1 with
  | nil => simp [pyHasKey] at h
  | cons kv rest ih =>
    obtain ⟨k', v'⟩ := kv
    by_cases hk : k' = k
    · simp [pyGet, hk]
    · simp only [pyHasKey, hk] at h
      simp at h
      simp [pyGet, hk, ih h]

/-- Field values of a successfully built DB payload, read back by key. -/
theorem montar_row_fields (jd : PyVal → Option String) (ts : String)
    (p : List (String × PyVal)) (img : PyVal) (tag : String) (b : Bool)
    (tf pi : PyVal) (s1 s2 s3 : String) (row : List (String × PyVal))
    (h1 : pyFloatConv (pyOr (pyGet p "tempo_reparo_h") (PyVal.float 0)) = Option.some tf)
    (h2 : pyIntConv (pyOr (pyGet p "periodicidade_dias") (PyVal.int 0)) = Option.some pi)
    (h3 : jd (pyOr (pyOr (pyGet p "_whys_grid") (pyGet p "cinco_porques_grid"))
      (PyVal.list [])) = Option.some s1)
    (h4 : jd (pyOr (pyOr (pyGet p "_acoes_lista") (pyGet p "acoes_lista"))
      (PyVal.list [])) = Option.some s2)
    (h5 : jd (pyOr (pyOr (pyGet p "_causas_linhas") (pyGet p "causas_linhas"))
      (PyVal.list [])) = Option.some s3)
    (hrow : montar_db_payload jd ts p img tag b = Option.some row) :
    pyGet row "data_quebra" = strOrNone (pyGet p "data_quebra") ∧
    pyGet row "hora_quebra" = strOrNone (pyGet p "hora_quebra") ∧
    pyGet row "ultima_realizacao" = strOrNone (pyGet p "ultima_realizacao") ∧
    pyGet row "tempo_reparo_h" = tf ∧
    pyGet row "periodicidade_dias" = pi ∧
    pyGet row "existe_plano" = pyGet p "existe_plano" ∧
    pyGet row "cinco_porques_grid" = PyVal.str s1 ∧
    pyGet row "acoes_lista" = PyVal.str s2 ∧
    pyGet row "causas_linhas" = PyVal.str s3 ∧
    (∀ k ∈ C7_TEXT_FIELDS, pyGet row k = pyGet p k) ∧
    (∀ k ∈ DB_COLUMNS, pyHasKey row k = true) := by
  rw [montar_db_payload_eq jd ts p img tag b tf pi s1 s2 s3 h1 h2 h3 h4 h5] at hrow
  have hrowv := Option.some.inj hrow
  subst hrowv
  refine ⟨rfl, rfl, rfl, rfl, rfl, rfl, rfl, rfl, rfl, ?_, ?_⟩
  · intro k hk
    simp only [C7_TEXT_FIELDS, List.mem_cons, List.not_mem_nil, or_false] at hk
    rcases hk with rfl | rfl | rfl | rfl | rfl | rfl | rfl | rfl | rfl | rfl | rfl | rfl |
      rfl | rfl | rfl | rfl | rfl | rfl <;> rfl
  · intro k hk
    simp only [DB_COLUMNS, List.mem_cons, List.not_mem_nil, or_false] at hk
    rcases hk with rfl | rfl | rfl | rfl | rfl | rfl | rfl | rfl | rfl | rfl | rfl | rfl |
      rfl | rfl | rfl | rfl | rfl | rfl | rfl | rfl | rfl | rfl | rfl | rfl | rfl | rfl |
      rfl | rfl | rfl | rfl | rfl | rfl | rfl | rfl | rfl | rfl | rfl | rfl | rfl | rfl |
      rfl | rfl | rfl <;> rfl

/-- C7: for a canonical payload (date/time/float/int fields already typed,
`existe_plano` one of the two radio values, the text fields strings, the
three structured lists round-tripping through the JSON serializer, no
transient `_`-keys, no upload), the row built by `inserir_bda` reads back
through `normalizar_dados_bda` to the original field values: dates, the
time, the float and int fields, `existe_plano`, every persisted text field,
and the three JSON lists (spec §8 P5; the spec's inclusion of
`caminho_imagem` and the audit trio in this round trip is settled
separately). -/
theorem claim_C7_insert_roundtrip
    (pd : String → Option Nat) (js : String → Option PyVal) (jd : PyVal → Option String)
    (salvar : PyVal → PyVal) (ts : String) (t2 : Nat) (n2 : PyTime)
    (p : List (String × PyVal)) (tag : String)
    (idv : Int) (created : PyVal) (row : List (String × PyVal))
    (n : Nat) (tt : PyTime) (q : Rat) (z : Int)
    (G A C : List PyVal) (sg sa sc : String)
    (hdq : pyGet p "data_quebra" = PyVal.date n)
    (hpd : pd (dateToStr n) = Option.some n)
    (hhq : pyGet p "hora_quebra" = PyVal.time tt)
    (hth : tt.hour < 24) (htm : tt.minute < 60) (hts2 : tt.second < 60) (htu : tt.micro = 0)
    (hul : pyGet p "ultima_realizacao" = PyVal.none ∨
           ∃ m, pyGet p "ultima_realizacao" = PyVal.date m ∧ pd (dateToStr m) = Option.some m)
    (htp : pyGet p "tempo_reparo_h" = PyVal.float q)
    (hpr : pyGet p "periodicidade_dias" = PyVal.int z)
    (hex : pyGet p "existe_plano" = PyVal.str "Sim" ∨ pyGet p "existe_plano" = PyVal.str "Não")
    (htext : ∀ k ∈ C7_TEXT_FIELDS, ∃ s, pyGet p k = PyVal.str s)
    (hwu : pyGet p "_whys_grid" = PyVal.none)
    (hau : pyGet p "_acoes_lista" = PyVal.none)
    (hcu : pyGet p "_causas_linhas" = PyVal.none)
    (hiu : pyGet p "_imagem_upload" = PyVal.none)
    (hg : pyGet p "cinco_porques_grid" = PyVal.list G)
    (ha : pyGet p "acoes_lista" = PyVal.list A)
    (hc : pyGet p "causas_linhas" = PyVal.list C)
    (hjdg : jd (PyVal.list G) = Option.some sg)
    (hjda : jd (PyVal.list A) = Option.some sa)
    (hjdc : jd (PyVal.list C) = Option.some sc)
    (hsgb : ¬ pyStrip sg = "") (hsab : ¬ pyStrip sa = "") (hscb : ¬ pyStrip sc = "")
    (hjsg : js sg = Option.some (PyVal.list G))
    (hjsa : js sa = Option.some (PyVal.list A))
    (hjsc : js sc = Option.some (PyVal.list C))
    (hrow : inserir_bda jd salvar ts p tag = Option.some row) :
    pyGet (normalizar_dados_bda pd js t2 n2
      (("id", PyVal.int idv) :: (row ++ [("created_at", created)]))) "data_quebra" =
      pyGet p "data_quebra" ∧
    pyGet (normalizar_dados_bda pd js t2 n2
      (("id", PyVal.int idv) :: (row ++ [("created_at", created)]))) "hora_quebra" =
      pyGet p "hora_quebra" ∧
    pyGet (normalizar_dados_bda pd js t2 n2
      (("id", PyVal.int idv) :: (row ++ [("created_at", created)]))) "ultima_realizacao" =
      pyGet p "ultima_realizacao" ∧
    pyGet (normalizar_dados_bda pd js t2 n2
      (("id", PyVal.int idv) :: (row ++ [("created_at", created)]))) "tempo_reparo_h" =
      pyGet p "tempo_reparo_h" ∧
    pyGet (normalizar_dados_bda pd js t2 n2
      (("id", PyVal.int idv) :: (row ++ [("created_at", created)]))) "periodicidade_dias" =
      pyGet p "periodicidade_dias" ∧
    pyGet (normalizar_dados_bda pd js t2 n2
      (("id", PyVal.int idv) :: (row ++ [("created_at", created)]))) "existe_plano" =
      pyGet p "existe_plano" ∧
    (∀ k ∈ C7_TEXT_FIELDS,
      pyGet (normalizar_dados_bda pd js t2 n2
        (("id", PyVal.int idv) :: (row ++ [("created_at", created)]))) k = pyGet p k) ∧
    pyGet (normalizar_dados_bda pd js t2 n2
      (("id", PyVal.int idv) :: (row ++ [("created_at", created)]))) "cinco_porques_grid" =
      PyVal.list G ∧
    pyGet (normalizar_dados_bda pd js t2 n2
      (("id", PyVal.int idv) :: (row ++ [("created_at", created)]))) "acoes_lista" =
      PyVal.list A ∧
    pyGet (normalizar_dados_bda pd js t2 n2
      (("id", PyVal.int idv) :: (row ++ [("created_at", created)]))) "causas_linhas" =
      PyVal.list C := by
  have himg : inserir_bda jd salvar ts p tag =
      montar_db_payload jd ts p PyVal.none tag false := by
    simp [inserir_bda, hiu, pyIsNone]
  rw [himg] at hrow
  have h1 : pyFloatConv (pyOr (pyGet p "tempo_reparo_h") (PyVal.float 0)) =
      Option.some (PyVal.float q) := by
    rw [htp, pyOr_float_self _ (by rfl)]
    rfl
  have h2 : pyIntConv (pyOr (pyGet p "periodicidade_dias") (PyVal.int 0)) =
      Option.some (PyVal.int z) := by
    rw [hpr, pyOr_int_self _ (by rfl)]
    rfl
  have h3 : jd (pyOr (pyOr (pyGet p "_whys_grid") (pyGet p "cinco_porques_grid"))
      (PyVal.list [])) = Option.some sg := by
    rw [hwu, hg, pyOr_none, pyOr_list_nil]; exact hjdg
  have h4 : jd (pyOr (pyOr (pyGet p "_acoes_lista") (pyGet p "acoes_lista"))
      (PyVal.list [])) = Option.some sa := by
    rw [hau, ha, pyOr_none, pyOr_list_nil]; exact hjda
  have h5 : jd (pyOr (pyOr (pyGet p "_causas_linhas") (pyGet p "causas_linhas"))
      (PyVal.list [])) = Option.some sc := by
    rw [hcu, hc, pyOr_none, pyOr_list_nil]; exact hjdc
  obtain ⟨f1, f2, f3, f4, f5, f6, f7, f8, f9, ftext, fkeys⟩ :=
    montar_row_fields jd ts p PyVal.none tag false (PyVal.float q) (PyVal.int z)
      sg sa sc row h1 h2 h3 h4 h5 hrow
  have hne : (("id", PyVal.int idv) :: (row ++ [("created_at", created)])) ≠ [] :=
    List.cons_ne_nil _ _
  have hRB : ∀ k2, ¬ "id" = k2 → pyHasKey row k2 = true →
      pyGet (("id", PyVal.int idv) :: (row ++ [("created_at", created)])) k2 =
        pyGet row k2 := by
    intro k2 hk1 hk2
    rw [pyGet_cons_ne _ _ _ _ hk1, pyGet_append_left _ _ _ hk2]
  refine ⟨?_, ?_, ?_, ?_, ?_, ?_, ?_, ?_, ?_, ?_⟩
  · rw [pyGet_normalizar_data pd js t2 n2 _ hne,
        hRB _ (by decide) (fkeys _ (by decide)), f1, hdq,
        show strOrNone (PyVal.date n) = PyVal.str (dateToStr n) from rfl,
        parse_date_dateToStr pd n hpd]
  · rw [pyGet_normalizar_hora pd js t2 n2 _ hne,
        hRB _ (by decide) (fkeys _ (by decide)), f2, hhq,
        show strOrNone (PyVal.time tt) = PyVal.str (timeToStr tt) from rfl,
        parse_time_roundtrip n2 tt hth htm hts2 htu]
  · rw [pyGet_normalizar_ultima pd js t2 n2 _ hne,
        hRB _ (by decide) (fkeys _ (by decide)), f3]
    rcases hul with hun | ⟨m, hum, hpdm⟩
    · rw [hun]; rfl
    · rw [hum, show strOrNone (PyVal.date m) = PyVal.str (dateToStr m) from rfl,
          parse_date_dateToStr pd m hpdm]
  · rw [pyGet_normalizar_tempo pd js t2 n2 _ hne,
        hRB _ (by decide) (fkeys _ (by decide)), f4, htp,
        pyOr_float_self _ (by rfl)]
    rfl
  · rw [pyGet_normalizar_perio pd js t2 n2 _ hne,
        hRB _ (by decide) (fkeys _ (by decide)), f5, hpr,
        pyOr_int_self _ (by rfl)]
    rfl
  · have hbv : pyGet (("id", PyVal.int idv) :: (row ++ [("created_at", created)]))
        "existe_plano" = pyGet p "existe_plano" := by
      rw [hRB _ (by decide) (fkeys _ (by decide)), f6]
    have hv : pyEqStr (pyGet (("id", PyVal.int idv) :: (row ++ [("created_at", created)]))
        "existe_plano") "Sim" = true ∨
        pyEqStr (pyGet (("id", PyVal.int idv) :: (row ++ [("created_at", created)]))
        "existe_plano") "Não" = true := by
      rw [hbv]
      rcases hex with h | h
      · left; rw [h]; rfl
      · right; rw [h]; rfl
    rw [pyGet_normalizar_existe_keep pd js t2 n2 _ hne hv, hbv]
  · intro k hk
    have hkT : k ∈ TEXT_KEYS := by
      have hall : ∀ k2 ∈ C7_TEXT_FIELDS, k2 ∈ TEXT_KEYS := by decide
      exact hall k hk
    have hkD : pyHasKey row k = true := by
      have hall : ∀ k2 ∈ C7_TEXT_FIELDS, k2 ∈ DB_COLUMNS := by decide
      exact fkeys k (hall k hk)
    have hkid : ¬ "id" = k := by
      intro heq
      rw [← heq] at hk
      exact absurd hk (by decide)
    obtain ⟨s, hs⟩ := htext k hk
    rw [pyGet_normalizar_text pd js t2 n2 _ hne k hkT
          (by intro heq; rw [heq] at hk; exact absurd hk (by decide))
          (by intro heq; rw [heq] at hk; exact absurd hk (by decide))
          (by intro heq; rw [heq] at hk; exact absurd hk (by decide))
          (by intro heq; rw [heq] at hk; exact absurd hk (by decide))
          (by intro heq; rw [heq] at hk; exact absurd hk (by decide))
          (by intro heq; rw [heq] at hk; exact absurd hk (by decide))
          (by intro heq; rw [heq] at hk; exact absurd hk (by decide))
          (by intro heq; rw [heq] at hk; exact absurd hk (by decide))
          (by intro heq; rw [heq] at hk; exact absurd hk (by decide)),
        hRB k hkid hkD, ftext k hk, hs]
    rfl
  · rw [pyGet_normalizar_grid pd js t2 n2 _ hne,
        hRB _ (by decide) (fkeys _ (by decide)), f7]
    simp only [safe_json_loads]
    rw [if_neg hsgb, hjsg]
    rfl
  · rw [pyGet_normalizar_acoes pd js t2 n2 _ hne,
        hRB _ (by decide) (fkeys _ (by decide)), f8]
    simp only [safe_json_loads]
    rw [if_neg hsab, hjsa]
    rfl
  · rw [pyGet_normalizar_causas pd js t2 n2 _ hne,
        hRB _ (by decide) (fkeys _ (by decide)), f9]
    simp only [safe_json_loads]
    rw [if_neg hscb, hjsc]
    rfl

/-- Instantiation of the insert round trip at the concrete canonical
record `c7p`. -/
theorem claim_C7_insert_roundtrip_witness :
    pyGet (normalizar_dados_bda c7pd c7js 0 c7now
      (("id", PyVal.int 1) :: (c7row ++ [("created_at", PyVal.none)]))) "data_quebra" =
      pyGet c7p "data_quebra" ∧
    pyGet (normalizar_dados_bda c7pd c7js 0 c7now
      (("id", PyVal.int 1) :: (c7row ++ [("created_at", PyVal.none)]))) "hora_quebra" =
      pyGet c7p "hora_quebra" ∧
    pyGet (normalizar_dados_bda c7pd c7js 0 c7now
      (("id", PyVal.int 1) :: (c7row ++ [("created_at", PyVal.none)]))) "ultima_realizacao" =
      pyGet c7p "ultima_realizacao" ∧
    pyGet (normalizar_dados_bda c7pd c7js 0 c7now
      (("id", PyVal.int 1) :: (c7row ++ [("created_at", PyVal.none)]))) "tempo_reparo_h" =
      pyGet c7p "tempo_reparo_h" ∧
    pyGet (normalizar_dados_bda c7pd c7js 0 c7now
      (("id", PyVal.int 1) :: (c7row ++ [("created_at", PyVal.none)]))) "periodicidade_dias" =
      pyGet c7p "periodicidade_dias" ∧
    pyGet (normalizar_dados_bda c7pd c7js 0 c7now
      (("id", PyVal.int 1) :: (c7row ++ [("created_at", PyVal.none)]))) "existe_plano" =
      pyGet c7p "existe_plano" ∧
    (∀ k ∈ C7_TEXT_FIELDS,
      pyGet (normalizar_dados_bda c7pd c7js 0 c7now
        (("id", PyVal.int 1) :: (c7row ++ [("created_at", PyVal.none)]))) k = pyGet c7p k) ∧
    pyGet (normalizar_dados_bda c7pd c7js 0 c7now
      (("id", PyVal.int 1) :: (c7row ++ [("created_at", PyVal.none)]))) "cinco_porques_grid" =
      PyVal.list c7G ∧
    pyGet (normalizar_dados_bda c7pd c7js 0 c7now
      (("id", PyVal.int 1) :: (c7row ++ [("created_at", PyVal.none)]))) "acoes_lista" =
      PyVal.list [] ∧
    pyGet (normalizar_dados_bda c7pd c7js 0 c7now
      (("id", PyVal.int 1) :: (c7row ++ [("created_at", PyVal.none)]))) "causas_linhas" =
      PyVal.list c7C :=
  claim_C7_insert_roundtrip c7pd c7js c7jd (fun v => v) "TS" 0 c7now c7p "alice [TAG]"
    1 PyVal.none c7row 5 ⟨14, 30, 5, 0⟩ 2 30 c7G [] c7C "G" "[]" "C"
    rfl rfl rfl (by decide) (by decide) (by decide) rfl
    (Or.inl rfl)
    rfl rfl
    (Or.inr rfl)
    (by
      intro k hk
      simp only [C7_TEXT_FIELDS, List.mem_cons, List.not_mem_nil, or_false] at hk
      rcases hk with rfl | rfl | rfl | rfl | rfl | rfl | rfl | rfl | rfl | rfl | rfl | rfl |
        rfl | rfl | rfl | rfl | rfl | rfl <;> exact ⟨_, rfl⟩)
    rfl rfl rfl rfl
    rfl rfl rfl
    rfl rfl rfl
    (by decide) (by decide) (by decide)
    rfl rfl rfl
    rfl

/-- C7 counterexample: the valid canonical record `c7p` carries
`caminho_imagem = "foto.png"` and `criado_por = "orig"`, yet the inserted
row read back through the normalizer yields `caminho_imagem = ""` (the
insert stores the freshly saved upload path — `None` without an upload —
never the payload field) and `criado_por = "alice [TAG]"` (the inserter's
tag), so not every scalar field of a valid record round-trips. -/
theorem claim_C7_counterexample :
    (validar_payload 0 c7p c7G c7C []).1 = [] ∧
    inserir_bda c7jd (fun v => v) "TS" c7p "alice [TAG]" = Option.some c7row ∧
    pyGet c7p "caminho_imagem" = PyVal.str "foto.png" ∧
    pyGet (normalizar_dados_bda c7pd c7js 0 c7now
      (("id", PyVal.int 1) :: (c7row ++ [("created_at", PyVal.none)]))) "caminho_imagem" =
      PyVal.str "" ∧
    ¬ pyGet (normalizar_dados_bda c7pd c7js 0 c7now
      (("id", PyVal.int 1) :: (c7row ++ [("created_at", PyVal.none)]))) "caminho_imagem" =
      pyGet c7p "caminho_imagem" ∧
    pyGet c7p "criado_por" = PyVal.str "orig" ∧
    pyGet (normalizar_dados_bda c7pd c7js 0 c7now
      (("id", PyVal.int 1) :: (c7row ++ [("created_at", PyVal.none)]))) "criado_por" =
      PyVal.str "alice [TAG]" := by
  refine ⟨rfl, rfl, rfl, rfl, ?_, rfl, rfl⟩
  intro h
  exact absurd (congrArg pyStr h) (by decide)
